import Mathlib

/-!
# cudnn-frontend graph nodes: batchnorm inference and convolution dgrad

A shallow embedding of `include/cudnn_frontend/node/batchnorm_inference.h` and
`include/cudnn_frontend/node/conv_dgrad.h`.

* Tensor descriptors live in a heap (`Heap`), and a slot of an attributes bag holds a
  pointer into it (`std::shared_ptr<Tensor_attributes>`), so that two slots may share one
  descriptor and registration is by identity.
* A slot map (the map from a port name to a shared pointer) is an association list in
  iteration order; an entry may hold the null pointer (`none`).
* A node method that dereferences a null pointer has undefined behaviour; such a run is
  `none`.
* Dimensions, strides and uids are `int64_t` in the source; they are unbounded integers
  here, the products of dimensions are the mathematical ones.
-/

namespace cudnn_frontend

/-! ## Errors -/

/-- Modelled from the spec: the enumeration `error_code_t` (only `OK` occurs under the
sources; the other kinds are the taxonomy of the error handling design). -/
inductive error_code_t where
  | OK
  | InvalidInput
  | BackendError
  deriving DecidableEq, Repr

/-- The pair `{code, message}` every phase returns. -/
structure error_t where
  code : error_code_t
  err_msg : String
  deriving DecidableEq, Repr

/-- The value `{error_code_t::OK, ""}`. -/
def error_t.ok : error_t := ⟨error_code_t.OK, ""⟩

/-! ## Tensor descriptors and the heap -/

/-- An address of a tensor descriptor (the target of a `std::shared_ptr`). -/
abbrev Ptr := Nat

/-- Modelled from the spec: the class `Tensor_attributes` (graph_properties.h): dimension
list, stride list (empty means unresolved), data type and the uid the assembler assigns
(`none` before it is assigned). -/
structure Tensor_attributes where
  dim : List Int
  stride : List Int
  data_type : Option Nat
  uid : Option Int
  deriving DecidableEq, Repr

/-- The descriptors that are alive, by address. -/
abbrev Heap := List Tensor_attributes

/-- Read through a pointer; `none` when the address holds no descriptor. -/
def Heap.deref (h : Heap) (p : Ptr) : Option Tensor_attributes := h[p]?

/-- Overwrite the descriptor at an address. -/
def Heap.store (h : Heap) (p : Ptr) (t : Tensor_attributes) : Heap := h.set p t

/-- The call `T->set_dim(d)`. -/
def Heap.set_dim (h : Heap) (p : Ptr) (d : List Int) : Option Heap :=
  match h.deref p with
  | none => none
  | some t => some (h.store p { t with dim := d })

/-- The call `T->set_stride(s)`. -/
def Heap.set_stride (h : Heap) (p : Ptr) (s : List Int) : Option Heap :=
  match h.deref p with
  | none => none
  | some t => some (h.store p { t with stride := s })

/-! ## Slot maps -/

/-- The call `map.find(port)`: `none` is `end()`, `some none` an entry holding the null
pointer, `some (some p)` an entry holding a pointer. -/
def find {α : Type} [DecidableEq α] : List (α × Option Ptr) → α → Option (Option Ptr)
  | [], _ => none
  | (k, v) :: rest, port => if k = port then some v else find rest port

/-- The pointer a slot holds when the entry exists and is not null. -/
def slot {α : Type} [DecidableEq α] (m : List (α × Option Ptr)) (port : α) : Option Ptr :=
  match find m port with
  | some (some p) => some p
  | _ => none

/-! ## Stride helpers -/

/-- The order the NHWC rule gives position `j` of a rank-`n` tensor: the second dimension
is last (order 0), the rest follow in descending original order (positions `n-1, ..., 2`
have the orders `1, 2, ...`), and the first dimension has the highest order. -/
def NHWC_order (n j : Nat) : Int :=
  if j = 0 then ((n - 1 : Nat) : Int) else if j = 1 then 0 else ((n - j : Nat) : Int)

/-- Modelled from the spec: `detail::generate_NHWC_stride_order` (graph_helpers.h, not under
the sources). The stride order, a function of the dimension count, places the second
dimension last and the rest in descending original order. -/
def generate_NHWC_stride_order (num_dims : Nat) : List Int :=
  (List.range num_dims).map (NHWC_order num_dims)

/-- The stride of position `i`: the product of the dimensions whose order is below the
order of `i`. -/
def stride_at (dim stride_order : List Int) (i : Nat) : Int :=
  (((List.range dim.length).filter
      (fun j => decide (stride_order.getD j 0 < stride_order.getD i 0))).map
      (fun j => dim.getD j 1)).prod

/-- Modelled from the spec: `detail::generate_stride` (graph_helpers.h, not under the
sources). The strides are the cumulative product of the dimensions over the stride order;
the order is read at every position of `dim`, which is undefined when it is shorter. -/
def generate_stride (dim stride_order : List Int) : Option (List Int) :=
  if stride_order.length < dim.length then none
  else some ((List.range dim.length).map (stride_at dim stride_order))

/-- The two calls `generate_stride(dim, generate_NHWC_stride_order(dim.size()))` of the
stride default. -/
def default_stride (dim : List Int) : Option (List Int) :=
  generate_stride dim (generate_NHWC_stride_order dim.length)

/-! ## Context and attribute bags -/

/-- Modelled from the spec: `detail::Context`, the defaults shared by a graph. -/
structure Context where
  compute_data_type : Option Nat
  intermediate_data_type : Option Nat
  io_data_type : Option Nat
  deriving DecidableEq, Repr

namespace Batchnorm_inference_attributes

/-- The enumeration `Batchnorm_inference_attributes::input_names`. -/
inductive input_names where
  | X
  | MEAN
  | INV_VARIANCE
  | SCALE
  | BIAS
  deriving DecidableEq, Repr

/-- The enumeration `Batchnorm_inference_attributes::output_names`. -/
inductive output_names where
  | Y
  deriving DecidableEq, Repr

end Batchnorm_inference_attributes

/-- The attributes bag of a batchnorm-inference node. -/
structure Batchnorm_inference_attributes where
  name : String
  compute_data_type : Option Nat
  inputs : List (Batchnorm_inference_attributes.input_names × Option Ptr)
  outputs : List (Batchnorm_inference_attributes.output_names × Option Ptr)
  deriving DecidableEq, Repr

namespace Conv_dgrad_attributes

/-- The enumeration `Conv_dgrad_attributes::input_names`. -/
inductive input_names where
  | DY
  | W
  deriving DecidableEq, Repr

/-- The enumeration `Conv_dgrad_attributes::output_names`. -/
inductive output_names where
  | DX
  deriving DecidableEq, Repr

end Conv_dgrad_attributes

/-- The attributes bag of a dgrad node. -/
structure Conv_dgrad_attributes where
  name : String
  compute_data_type : Option Nat
  padding : List Int
  stride : List Int
  dilation : List Int
  inputs : List (Conv_dgrad_attributes.input_names × Option Ptr)
  outputs : List (Conv_dgrad_attributes.output_names × Option Ptr)
  deriving DecidableEq, Repr

/-- Modelled from the spec: `Batchnorm_inference_attributes::fill_from_context`
(graph_properties.h): an unset scalar parameter, the compute data type, is pulled from the
context. -/
def Batchnorm_inference_attributes.fill_from_context
    (attributes : Batchnorm_inference_attributes) (context : Context) :
    Batchnorm_inference_attributes :=
  match attributes.compute_data_type with
  | none => { attributes with compute_data_type := context.compute_data_type }
  | some _ => attributes

/-- Modelled from the spec: `Conv_dgrad_attributes::fill_from_context`
(graph_properties.h): an unset scalar parameter, the compute data type, is pulled from the
context. -/
def Conv_dgrad_attributes.fill_from_context
    (attributes : Conv_dgrad_attributes) (context : Context) : Conv_dgrad_attributes :=
  match attributes.compute_data_type with
  | none => { attributes with compute_data_type := context.compute_data_type }
  | some _ => attributes

/-! ## Validation macros -/

/-- Modelled from the spec: the macros `CUDNN_FE_VALIDATE_INPUT_TENSOR` and
`CUDNN_FE_VALIDATE_OUTPUT_TENSOR` (graph_helpers.h): a required slot that is missing or
holds the null pointer is rejected with `InvalidInput`. The result is the error the macro
returns with, `none` when it falls through. -/
def CUDNN_FE_VALIDATE_TENSOR {α : Type} [DecidableEq α]
    (m : List (α × Option Ptr)) (port : α) : Option error_t :=
  match find m port with
  | some (some _) => none
  | _ => some ⟨error_code_t.InvalidInput, "Tensor not set"⟩

/-- The macro `CHECK_CUDNN_FRONTEND_ERROR(x)`: return `x` from the enclosing function
unless it is good. -/
def CHECK_CUDNN_FRONTEND_ERROR (x : error_t) : Option error_t :=
  if x.code = error_code_t.OK then none else some x

/-- Sequencing of statements that may return early: the first returned value wins. -/
def or_else (early : Option error_t) (rest : error_t) : error_t :=
  match early with
  | some e => e
  | none => rest

/-- Modelled from the spec: `validate_outputs` (graph_properties.h): every output slot
that holds a tensor must have determined dimensions and strides; the first that has not is
rejected with `InvalidInput`. A null slot is skipped. -/
def validate_outputs {α : Type} : List (α × Option Ptr) → Heap → Option error_t
  | [], _ => some error_t.ok
  | (_, none) :: rest, heap => validate_outputs rest heap
  | (_, some p) :: rest, heap =>
    match heap.deref p with
    | none => none
    | some t =>
      if t.dim.isEmpty || t.stride.isEmpty then
        some ⟨error_code_t.InvalidInput, "Tensor dims or strides not set"⟩
      else validate_outputs rest heap

/-! ## Tensor registry -/

/-- The backend tensor `cudnn_frontend::Tensor` a descriptor is translated to. -/
structure Tensor where
  id : Int
  dim : List Int
  stride : List Int
  data_type : Option Nat
  deriving DecidableEq, Repr

/-- The map `std::unordered_map<int64_t, std::shared_ptr<Tensor>>`, keys unique. -/
abbrev Registry := List (Int × Tensor)

/-- The call `tensors.find(uid)`, as the entry found. -/
def Registry.at? : Registry → Int → Option Tensor
  | [], _ => none
  | (k, t) :: rest, uid => if k = uid then some t else Registry.at? rest uid

/-- Whether the key is in the map. -/
def Registry.contains (tensors : Registry) (uid : Int) : Bool :=
  (tensors.at? uid).isSome

/-- Put an entry under a key, in place of the entry the key had. -/
def Registry.insert : Registry → Int → Tensor → Registry
  | [], uid, t => [(uid, t)]
  | (k, t0) :: rest, uid, t =>
    if k = uid then (uid, t) :: rest else (k, t0) :: Registry.insert rest uid t

/-- The state the assembler shares between the nodes while tensors are created: the uid
counter, the registry, and the heap of descriptors (which hold their uid). -/
structure Assembler where
  uid : Int
  tensors : Registry
  heap : Heap
  deriving DecidableEq, Repr

/-- Whether a descriptor has an entry of the registry: it has a uid and the uid is a key. -/
def is_registered (tensors : Registry) (props : Tensor_attributes) : Bool :=
  match props.uid with
  | none => false
  | some u => tensors.contains u

/-- The descriptor at an address has an entry of the registry. -/
def is_registered_at (p : Ptr) (s : Assembler) : Prop :=
  ∃ t, s.heap.deref p = some t ∧ is_registered s.tensors t = true

/-- Modelled from the spec: `INode::create_cudnn_tensor` (node_interface.h): a descriptor
that has an entry of the registry reuses it; one that has none is given the next uid and
is inserted under it. `tensor_build` is the backend tensor builder, whose failure is
returned as a `BackendError` without a change to the state. -/
def create_cudnn_tensor (tensor_build : Tensor_attributes → Option Tensor)
    (props : Ptr) (s : Assembler) : Option (error_t × Assembler) :=
  match s.heap.deref props with
  | none => none
  | some t =>
    if is_registered s.tensors t then some (error_t.ok, s)
    else
      let t1 := { t with uid := some s.uid }
      match tensor_build t1 with
      | none => some (⟨error_code_t.BackendError, "Tensor build failed"⟩, s)
      | some backend_tensor =>
        some (error_t.ok,
          { uid := s.uid + 1,
            tensors := s.tensors.insert s.uid backend_tensor,
            heap := s.heap.store props t1 })

/-- One of the loops `for (auto const& [name, tensor] : map)` of `create_cudnn_tensors`:
every non-null tensor is created, the first error is returned. -/
def create_cudnn_tensors_loop {α : Type}
    (tensor_build : Tensor_attributes → Option Tensor) :
    List (α × Option Ptr) → Assembler → Option (error_t × Assembler)
  | [], s => some (error_t.ok, s)
  | (_, none) :: rest, s => create_cudnn_tensors_loop tensor_build rest s
  | (_, some tensor) :: rest, s =>
    match create_cudnn_tensor tensor_build tensor s with
    | none => none
    | some (e, s1) =>
      match CHECK_CUDNN_FRONTEND_ERROR e with
      | some err => some (err, s1)
      | none => create_cudnn_tensors_loop tensor_build rest s1

/-- The body shared by `BatchnormInferenceNode::create_cudnn_tensors` and
`DgradNode::create_cudnn_tensors`: the loop over the inputs, then the loop over the
outputs. -/
def create_cudnn_tensors_body {α β : Type}
    (tensor_build : Tensor_attributes → Option Tensor)
    (inputs : List (α × Option Ptr)) (outputs : List (β × Option Ptr)) (s : Assembler) :
    Option (error_t × Assembler) :=
  match create_cudnn_tensors_loop tensor_build inputs s with
  | none => none
  | some (e, s1) =>
    match CHECK_CUDNN_FRONTEND_ERROR e with
    | some err => some (err, s1)
    | none => create_cudnn_tensors_loop tensor_build outputs s1

/-! ## Backend operations -/

/-- The descriptor kinds the two nodes build. -/
inductive DescriptorType_t where
  | OPERATION_NORM_FORWARD_DESCRIPTOR
  | OPERATION_CONVOLUTION_BACKWARD_DATA_DESCRIPTOR
  deriving DecidableEq, Repr

/-- The normalization modes. -/
inductive NormMode_t where
  | BATCH_NORM
  deriving DecidableEq, Repr

/-- The phases of a forward normalization. -/
inductive NormFwdPhase_t where
  | INFERENCE
  deriving DecidableEq, Repr

/-- The fields of `cudnn_frontend::OperationBuilder` the batchnorm node sets. -/
structure OperationBuilder where
  descriptor_type : DescriptorType_t
  norm_mode : Option NormMode_t
  norm_fwd_phase : Option NormFwdPhase_t
  xDesc : Option Tensor
  saved_mean : Option Tensor
  saved_inv_var : Option Tensor
  scale : Option Tensor
  bias : Option Tensor
  yDesc : Option Tensor
  deriving DecidableEq, Repr

/-- The constructor `OperationBuilder(descriptor_type)`. -/
def OperationBuilder.new (descriptor_type : DescriptorType_t) : OperationBuilder :=
  ⟨descriptor_type, none, none, none, none, none, none, none, none⟩

/-- The exception `cudnnException(what, status)`. -/
structure cudnnException where
  what : String
  status : Int
  deriving DecidableEq, Repr

/-- How `create_cudnn_operations` ends. -/
inductive Outcome (σ : Type) where
  | returned (e : error_t) (s : σ)
  | thrown (e : cudnnException)
  | out_of_range
  | undefined
  deriving DecidableEq, Repr

/-- The shared state `create_cudnn_operations` appends to. -/
structure Emission (Operation : Type) where
  uids_involved_in_operations : List Int
  operations : List Operation
  deriving DecidableEq, Repr

/-- The call `set.insert(first, last)` on an `std::unordered_set`. -/
def insert_all (set : List Int) (uids : List Int) : List Int :=
  uids.foldl (fun acc u => if u ∈ acc then acc else acc ++ [u]) set

/-- Modelled from the spec: the macros `CUDNN_FE_VALIDATE_AND_ASSIGN_INPUT_TENSOR` and
`CUDNN_FE_VALIDATE_AND_ASSIGN_OUTPUT_TENSOR` (graph_helpers.h): a slot that is missing or
null makes the method return `InvalidInput`; otherwise the entry is bound and the method
goes on. -/
def CUDNN_FE_VALIDATE_AND_ASSIGN_TENSOR {α σ : Type} [DecidableEq α]
    (m : List (α × Option Ptr)) (port : α) (s : σ) (k : Ptr → Outcome σ) : Outcome σ :=
  match find m port with
  | some (some p) => k p
  | _ => Outcome.returned ⟨error_code_t.InvalidInput, "Tensor not set"⟩ s

/-- The expression `*(tensors.at(T->second->get_uid()))`: `at` throws `std::out_of_range`
on a uid that is not a key of the registry. -/
def tensors_at {σ : Type} (heap : Heap) (tensors : Registry) (p : Ptr)
    (k : Tensor → Outcome σ) : Outcome σ :=
  match heap.deref p with
  | none => Outcome.undefined
  | some t =>
    match t.uid with
    | none => Outcome.out_of_range
    | some u =>
      match tensors.at? u with
      | none => Outcome.out_of_range
      | some backend_tensor => k backend_tensor

/-- The backend tensor a slot is registered as: the slot holds a descriptor, the
descriptor has a uid, and the uid is a key of the registry. -/
def registered_tensor {α : Type} [DecidableEq α] (m : List (α × Option Ptr)) (port : α)
    (heap : Heap) (tensors : Registry) : Option Tensor :=
  match slot m port with
  | none => none
  | some p =>
    match heap.deref p with
    | none => none
    | some t =>
      match t.uid with
      | none => none
      | some u => tensors.at? u

/-! ## BatchnormInferenceNode -/

namespace BatchnormInferenceNode

open Batchnorm_inference_attributes

/-- The method `BatchnormInferenceNode::expand_and_infer_properties`. The result is the
returned error, the attributes and the heap after the call. The local copy `y_tensor_dim`
is resized and dropped, which changes nothing; `attributes.inputs[X]` on a missing entry
yields the null pointer, whose dereference is undefined like that of a null entry. -/
def expand_and_infer_properties (context : Context)
    (attributes : Batchnorm_inference_attributes) (heap : Heap) :
    Option (error_t × Batchnorm_inference_attributes × Heap) :=
  let attributes := attributes.fill_from_context context
  match slot attributes.inputs input_names.X with
  | none => none
  | some X =>
    match heap.deref X with
    | none => none
    | some x =>
      let x_tensor_dim := x.dim
      match slot attributes.outputs output_names.Y with
      | none => none
      | some Y =>
        match heap.deref Y with
        | none => none
        | some y =>
          let y_tensor_dim := y.dim
          -- Only infer dims and strides if user did not set them
          match (if y_tensor_dim.isEmpty then heap.set_dim Y x_tensor_dim else some heap) with
          | none => none
          | some heap1 =>
            match heap1.deref Y with
            | none => none
            | some y1 =>
              if y1.stride.isEmpty then
                let Y_dim := y1.dim
                -- Default to NHWC
                let stride_order := generate_NHWC_stride_order Y_dim.length
                match generate_stride Y_dim stride_order with
                | none => none
                | some s =>
                  match heap1.set_stride Y s with
                  | none => none
                  | some heap2 => some (error_t.ok, attributes, heap2)
              else some (error_t.ok, attributes, heap1)

/-- The method `BatchnormInferenceNode::pre_validate_node`; `validate_inputs` is the
attribute-level check of graph_properties.h. -/
def pre_validate_node (validate_inputs : Batchnorm_inference_attributes → Heap → error_t)
    (attributes : Batchnorm_inference_attributes) (heap : Heap) : error_t :=
  or_else (CUDNN_FE_VALIDATE_TENSOR attributes.inputs input_names.X) <|
  or_else (CUDNN_FE_VALIDATE_TENSOR attributes.inputs input_names.SCALE) <|
  or_else (CUDNN_FE_VALIDATE_TENSOR attributes.inputs input_names.BIAS) <|
  or_else (CUDNN_FE_VALIDATE_TENSOR attributes.inputs input_names.MEAN) <|
  or_else (CUDNN_FE_VALIDATE_TENSOR attributes.inputs input_names.INV_VARIANCE) <|
  or_else (CUDNN_FE_VALIDATE_TENSOR attributes.outputs output_names.Y) <|
  or_else (CHECK_CUDNN_FRONTEND_ERROR (validate_inputs attributes heap)) <|
  error_t.ok

/-- The method `BatchnormInferenceNode::post_validate_node`. -/
def post_validate_node (attributes : Batchnorm_inference_attributes) (heap : Heap) :
    Option error_t :=
  match validate_outputs attributes.outputs heap with
  | none => none
  | some e => some (or_else (CHECK_CUDNN_FRONTEND_ERROR e) error_t.ok)

/-- The method `BatchnormInferenceNode::create_cudnn_tensors`. -/
def create_cudnn_tensors (tensor_build : Tensor_attributes → Option Tensor)
    (attributes : Batchnorm_inference_attributes) (s : Assembler) :
    Option (error_t × Assembler) :=
  create_cudnn_tensors_body tensor_build attributes.inputs attributes.outputs s

/-- The builder as `create_cudnn_operations` has set it before `build()`. -/
def batchnorm_operation_builder (X MEAN INV_VARIANCE SCALE BIAS Y : Tensor) :
    OperationBuilder :=
  { OperationBuilder.new DescriptorType_t.OPERATION_NORM_FORWARD_DESCRIPTOR with
    norm_mode := some NormMode_t.BATCH_NORM
    norm_fwd_phase := some NormFwdPhase_t.INFERENCE
    xDesc := some X
    saved_mean := some MEAN
    saved_inv_var := some INV_VARIANCE
    scale := some SCALE
    bias := some BIAS
    yDesc := some Y }

/-- The method `BatchnormInferenceNode::create_cudnn_operations`. `build` is the backend
`OperationBuilder::build()`, which throws on failure; `get_non_virtual_uids` is the
attribute query of graph_properties.h. -/
def create_cudnn_operations {Operation : Type}
    (build : OperationBuilder → Except cudnnException Operation)
    (get_non_virtual_uids : Batchnorm_inference_attributes → Heap → List Int)
    (attributes : Batchnorm_inference_attributes) (heap : Heap)
    (s : Emission Operation) (tensors : Registry) : Outcome (Emission Operation) :=
  CUDNN_FE_VALIDATE_AND_ASSIGN_TENSOR attributes.inputs input_names.X s fun X =>
  tensors_at heap tensors X fun xDesc =>
  CUDNN_FE_VALIDATE_AND_ASSIGN_TENSOR attributes.inputs input_names.MEAN s fun MEAN =>
  CUDNN_FE_VALIDATE_AND_ASSIGN_TENSOR attributes.inputs input_names.INV_VARIANCE s
    fun INV_VARIANCE =>
  tensors_at heap tensors MEAN fun saved_mean =>
  tensors_at heap tensors INV_VARIANCE fun saved_inv_var =>
  CUDNN_FE_VALIDATE_AND_ASSIGN_TENSOR attributes.inputs input_names.SCALE s fun SCALE =>
  CUDNN_FE_VALIDATE_AND_ASSIGN_TENSOR attributes.inputs input_names.BIAS s fun BIAS =>
  tensors_at heap tensors SCALE fun scale =>
  tensors_at heap tensors BIAS fun bias =>
  CUDNN_FE_VALIDATE_AND_ASSIGN_TENSOR attributes.outputs output_names.Y s fun Y =>
  tensors_at heap tensors Y fun yDesc =>
  match build (batchnorm_operation_builder xDesc saved_mean saved_inv_var scale bias yDesc) with
  | Except.error e => Outcome.thrown ⟨e.what, e.status⟩
  | Except.ok operation =>
    let non_virtual_uids := get_non_virtual_uids attributes heap
    Outcome.returned error_t.ok
      { uids_involved_in_operations :=
          insert_all s.uids_involved_in_operations non_virtual_uids
        operations := s.operations ++ [operation] }

end BatchnormInferenceNode

/-! ## DgradNode -/

namespace DgradNode

open Conv_dgrad_attributes

/-- The method `DgradNode::pre_validate_node`; `validate_inputs` is the attribute-level
check of graph_properties.h. -/
def pre_validate_node (validate_inputs : Conv_dgrad_attributes → Heap → error_t)
    (attributes : Conv_dgrad_attributes) (heap : Heap) : error_t :=
  or_else (CUDNN_FE_VALIDATE_TENSOR attributes.inputs input_names.DY) <|
  or_else (CUDNN_FE_VALIDATE_TENSOR attributes.inputs input_names.W) <|
  or_else (CUDNN_FE_VALIDATE_TENSOR attributes.outputs output_names.DX) <|
  or_else (CHECK_CUDNN_FRONTEND_ERROR (validate_inputs attributes heap)) <|
  error_t.ok

/-- The method `DgradNode::expand_and_infer_properties`. The result is the returned error,
the attributes and the heap after the call. -/
def expand_and_infer_properties (context : Context)
    (attributes : Conv_dgrad_attributes) (heap : Heap) :
    Option (error_t × Conv_dgrad_attributes × Heap) :=
  let attributes := attributes.fill_from_context context
  match slot attributes.outputs output_names.DX with
  | none => none
  | some DX =>
    match slot attributes.inputs input_names.W with
    | none => none
    | some W =>
      match slot attributes.inputs input_names.DY with
      | none => none
      | some DY =>
        match heap.deref W, heap.deref DY, heap.deref DX with
        | some _, some _, some dx =>
          -- No dim inferencing as inverse mapping from DY, W to DX is not unique.
          -- Only infer strides if user did not set them
          if dx.stride.isEmpty then
            let DX_dim := dx.dim
            -- Default to NHWC
            let stride_order := generate_NHWC_stride_order DX_dim.length
            match generate_stride DX_dim stride_order with
            | none => none
            | some s =>
              match heap.set_stride DX s with
              | none => none
              | some heap1 => some (error_t.ok, attributes, heap1)
          else some (error_t.ok, attributes, heap)
        | _, _, _ => none

/-- The method `DgradNode::post_validate_node`. -/
def post_validate_node (attributes : Conv_dgrad_attributes) (heap : Heap) :
    Option error_t :=
  match validate_outputs attributes.outputs heap with
  | none => none
  | some e => some (or_else (CHECK_CUDNN_FRONTEND_ERROR e) error_t.ok)

/-- The method `DgradNode::create_cudnn_tensors`. -/
def create_cudnn_tensors (tensor_build : Tensor_attributes → Option Tensor)
    (attributes : Conv_dgrad_attributes) (s : Assembler) : Option (error_t × Assembler) :=
  create_cudnn_tensors_body tensor_build attributes.inputs attributes.outputs s

end DgradNode

/-- The dimensions Y has after the batchnorm expansion: its own, or those of X when it
has none. -/
def inferred_dim (x y : Tensor_attributes) : List Int :=
  if y.dim = [] then x.dim else y.dim

/-! ## Inputs of the examples -/

/-- A context with every default set. -/
def example_context : Context := ⟨some 0, some 0, some 0⟩

/-- A batchnorm-inference node: X at address 0, SCALE, BIAS, MEAN, INV_VARIANCE at 1 to 4,
Y at 5. -/
def example_batchnorm : Batchnorm_inference_attributes :=
  { name := "bn"
    compute_data_type := none
    inputs := [(.X, some 0), (.MEAN, some 3), (.INV_VARIANCE, some 4), (.SCALE, some 1),
      (.BIAS, some 2)]
    outputs := [(.Y, some 5)] }

/-- A descriptor with the given dimensions and nothing else set. -/
def unset_tensor (dim : List Int) : Tensor_attributes := ⟨dim, [], none, none⟩

/-- The heap of the end-to-end batchnorm scenario: X is `[8,64,32,32]`, the four
statistics are `[1,64,1,1]`, Y is unset. -/
def example_batchnorm_heap : Heap :=
  [unset_tensor [8, 64, 32, 32], unset_tensor [1, 64, 1, 1], unset_tensor [1, 64, 1, 1],
   unset_tensor [1, 64, 1, 1], unset_tensor [1, 64, 1, 1], unset_tensor []]

/-- The same node on a one-dimensional X. -/
def low_rank_batchnorm_heap : Heap :=
  [unset_tensor [64], unset_tensor [64], unset_tensor [64], unset_tensor [64],
   unset_tensor [64], unset_tensor []]

/-- A dgrad node: DY at address 0, W at 1, DX at 2. -/
def example_dgrad : Conv_dgrad_attributes :=
  { name := "dgrad"
    compute_data_type := none
    padding := [0, 0]
    stride := [1, 1]
    dilation := [1, 1]
    inputs := [(.DY, some 0), (.W, some 1)]
    outputs := [(.DX, some 2)] }

/-- The heap of the end-to-end dgrad scenario: DY is `[8,64,30,30]`, W is `[64,64,3,3]`,
DX is unset. -/
def example_dgrad_heap : Heap :=
  [unset_tensor [8, 64, 30, 30], unset_tensor [64, 64, 3, 3], unset_tensor []]

/-- The dgrad scenario with the dimensions of DX supplied. -/
def supplied_dgrad_heap : Heap :=
  [unset_tensor [8, 64, 30, 30], unset_tensor [64, 64, 3, 3], unset_tensor [8, 64, 32, 32]]

/-- The heap of the batchnorm scenario after the expansion. -/
def expanded_batchnorm_heap : Heap :=
  [unset_tensor [8, 64, 32, 32], unset_tensor [1, 64, 1, 1], unset_tensor [1, 64, 1, 1],
   unset_tensor [1, 64, 1, 1], unset_tensor [1, 64, 1, 1],
   ⟨[8, 64, 32, 32], [65536, 1, 2048, 64], none, none⟩]

/-- The heap of the dgrad scenario with DX supplied, after the expansion. -/
def expanded_dgrad_heap : Heap :=
  [unset_tensor [8, 64, 30, 30], unset_tensor [64, 64, 3, 3],
   ⟨[8, 64, 32, 32], [65536, 1, 2048, 64], none, none⟩]

/-- A batchnorm heap whose Y has caller-set dimensions and stride, unrelated to X and to
the NHWC default. -/
def caller_set_batchnorm_heap : Heap :=
  [unset_tensor [8, 64, 32, 32], unset_tensor [1, 64, 1, 1], unset_tensor [1, 64, 1, 1],
   unset_tensor [1, 64, 1, 1], unset_tensor [1, 64, 1, 1], ⟨[4, 4], [1, 1], none, none⟩]

/-- A dgrad heap whose DX has caller-set dimensions and stride. -/
def caller_set_dgrad_heap : Heap :=
  [unset_tensor [8, 64, 30, 30], unset_tensor [64, 64, 3, 3], ⟨[4, 4], [1, 1], none, none⟩]

/-- A tensor builder that accepts every descriptor. -/
def example_tensor_build (t : Tensor_attributes) : Option Tensor :=
  some ⟨t.uid.getD 0, t.dim, t.stride, t.data_type⟩

/-- The assembler before the tensors of the batchnorm scenario are created. -/
def fresh_batchnorm_assembler : Assembler := ⟨1, [], expanded_batchnorm_heap⟩

/-- The assembler after the tensors of the batchnorm scenario are created: X, MEAN,
INV_VARIANCE, SCALE, BIAS and Y have the uids 1 to 6. -/
def registered_batchnorm_assembler : Assembler :=
  { uid := 7
    tensors :=
      [(1, ⟨1, [8, 64, 32, 32], [], none⟩), (2, ⟨2, [1, 64, 1, 1], [], none⟩),
       (3, ⟨3, [1, 64, 1, 1], [], none⟩), (4, ⟨4, [1, 64, 1, 1], [], none⟩),
       (5, ⟨5, [1, 64, 1, 1], [], none⟩),
       (6, ⟨6, [8, 64, 32, 32], [65536, 1, 2048, 64], none⟩)]
    heap :=
      [⟨[8, 64, 32, 32], [], none, some 1⟩, ⟨[1, 64, 1, 1], [], none, some 4⟩,
       ⟨[1, 64, 1, 1], [], none, some 5⟩, ⟨[1, 64, 1, 1], [], none, some 2⟩,
       ⟨[1, 64, 1, 1], [], none, some 3⟩,
       ⟨[8, 64, 32, 32], [65536, 1, 2048, 64], none, some 6⟩] }

/-- The assembler before the tensors of the dgrad scenario are created, after another
node has used the uids up to 6. -/
def fresh_dgrad_assembler : Assembler :=
  ⟨7, registered_batchnorm_assembler.tensors, expanded_dgrad_heap⟩

/-- The assembler after the tensors of the dgrad scenario are created: DY, W and DX have
the uids 7 to 9. -/
def registered_dgrad_assembler : Assembler :=
  { uid := 10
    tensors := registered_batchnorm_assembler.tensors ++
      [(7, ⟨7, [8, 64, 30, 30], [], none⟩), (8, ⟨8, [64, 64, 3, 3], [], none⟩),
       (9, ⟨9, [8, 64, 32, 32], [65536, 1, 2048, 64], none⟩)]
    heap :=
      [⟨[8, 64, 30, 30], [], none, some 7⟩, ⟨[64, 64, 3, 3], [], none, some 8⟩,
       ⟨[8, 64, 32, 32], [65536, 1, 2048, 64], none, some 9⟩] }

/-- A backend whose operation is the builder it was built from. -/
def example_build (b : OperationBuilder) : Except cudnnException OperationBuilder :=
  Except.ok b

/-- The operation the batchnorm scenario emits. -/
def example_operation : OperationBuilder :=
  { descriptor_type := DescriptorType_t.OPERATION_NORM_FORWARD_DESCRIPTOR
    norm_mode := some NormMode_t.BATCH_NORM
    norm_fwd_phase := some NormFwdPhase_t.INFERENCE
    xDesc := some ⟨1, [8, 64, 32, 32], [], none⟩
    saved_mean := some ⟨2, [1, 64, 1, 1], [], none⟩
    saved_inv_var := some ⟨3, [1, 64, 1, 1], [], none⟩
    scale := some ⟨4, [1, 64, 1, 1], [], none⟩
    bias := some ⟨5, [1, 64, 1, 1], [], none⟩
    yDesc := some ⟨6, [8, 64, 32, 32], [65536, 1, 2048, 64], none⟩ }

/-! ## The stride default in closed form -/

theorem generate_NHWC_stride_order_spec (n : Nat) :
    (generate_NHWC_stride_order n).length = n ∧
      ∀ j, j < n → (generate_NHWC_stride_order n).getD j 0 = NHWC_order n j := by
  unfold generate_NHWC_stride_order
  refine ⟨by simp, fun j hj => ?_⟩
  simp [List.getD_eq_getElem?_getD, hj]

theorem default_stride_eq (d : List Int) :
    default_stride d = some ((List.range d.length).map
      (stride_at d (generate_NHWC_stride_order d.length))) := by
  unfold default_stride generate_stride
  rw [if_neg (by rw [(generate_NHWC_stride_order_spec d.length).1]; omega)]

theorem stride_at_eq_prod (d o : List Int) (i : Nat) (S : Finset Nat)
    (hS : ∀ j, j ∈ S ↔ j < d.length ∧ o.getD j 0 < o.getD i 0) :
    stride_at d o i = S.prod (fun j => d.getD j 1) := by
  unfold stride_at
  rw [← List.prod_toFinset _ ((List.nodup_range _).filter _)]
  congr 1
  ext j
  rw [hS j]
  simp [List.mem_filter]

theorem prod_range_getD (t : List Int) :
    (Finset.range t.length).prod (fun j => t.getD j 1) = t.prod := by
  induction t with
  | nil => simp
  | cons a t ih =>
    rw [List.length_cons, Finset.prod_range_succ']
    simp only [List.getD_cons_succ, List.getD_cons_zero, List.prod_cons]
    rw [ih, mul_comm]

theorem prod_Ico_getD (d : List Int) :
    (Finset.Ico 1 d.length).prod (fun j => d.getD j 1) = d.tail.prod := by
  cases d with
  | nil => simp
  | cons a t =>
    rw [Finset.prod_Ico_eq_prod_range]
    simp only [List.length_cons, Nat.add_sub_cancel, List.tail_cons]
    rw [← prod_range_getD t]
    apply Finset.prod_congr rfl
    intro k _
    rw [Nat.add_comm 1 k, List.getD_cons_succ]

theorem NHWC_order_eq (n j : Nat) (hj : j < n) :
    (j = 0 ∧ NHWC_order n j = (n : Int) - 1) ∨ (j = 1 ∧ NHWC_order n j = 0) ∨
      (2 ≤ j ∧ NHWC_order n j = (n : Int) - (j : Int)) := by
  unfold NHWC_order
  by_cases j0 : j = 0
  · left
    rw [if_pos j0]
    exact ⟨j0, by omega⟩
  · by_cases j1 : j = 1
    · right; left
      rw [if_neg j0, if_pos j1]
      exact ⟨j1, rfl⟩
    · right; right
      rw [if_neg j0, if_neg j1]
      exact ⟨by omega, by omega⟩

/-- What the stride default computes on a tensor of rank at least two. -/
theorem default_stride_spec (d : List Int) (hd : 2 ≤ d.length) :
    ∃ s, default_stride d = some s ∧ s.length = d.length ∧
      s.getD 1 0 = 1 ∧
      (2 < d.length → s.getD (d.length - 1) 0 = d.getD 1 0) ∧
      (∀ i, 2 ≤ i → i < d.length - 1 → s.getD i 0 = s.getD (i + 1) 0 * d.getD (i + 1) 0) ∧
      s.getD 0 0 = d.tail.prod := by
  obtain ⟨o, ho⟩ : ∃ o, o = generate_NHWC_stride_order d.length := ⟨_, rfl⟩
  have hord : ∀ j, j < d.length → o.getD j 0 = NHWC_order d.length j := by
    rw [ho]; exact (generate_NHWC_stride_order_spec d.length).2
  have hs : default_stride d = some ((List.range d.length).map (stride_at d o)) := by
    rw [ho]; exact default_stride_eq d
  have hget : ∀ i, i < d.length →
      ((List.range d.length).map (stride_at d o)).getD i 0 = stride_at d o i := by
    intro i hi
    simp [List.getD_eq_getElem?_getD, hi]
  have hdget : ∀ j, j < d.length → d.getD j 1 = d.getD j 0 := by
    intro j hj
    rw [List.getD_eq_getElem _ _ hj, List.getD_eq_getElem _ _ hj]
  refine ⟨_, hs, by simp, ?_, ?_, ?_, ?_⟩
  · rw [hget 1 (by omega)]
    rw [stride_at_eq_prod d o 1 ∅]
    · simp
    · intro j
      constructor
      · intro h; simp at h
      · rintro ⟨hj, hlt⟩
        rw [hord j hj, hord 1 (by omega)] at hlt
        have e1 := NHWC_order_eq d.length 1 (by omega)
        have ej := NHWC_order_eq d.length j hj
        omega
  · intro h2
    rw [hget _ (by omega), stride_at_eq_prod d o (d.length - 1) {1}]
    · rw [Finset.prod_singleton]; exact hdget 1 (by omega)
    · intro j
      rw [Finset.mem_singleton]
      have e1 := NHWC_order_eq d.length 1 (by omega)
      have el := NHWC_order_eq d.length (d.length - 1) (by omega)
      constructor
      · intro h
        subst h
        refine ⟨by omega, ?_⟩
        rw [hord 1 (by omega), hord _ (by omega)]
        omega
      · rintro ⟨hj, hlt⟩
        rw [hord j hj, hord _ (by omega)] at hlt
        have ej := NHWC_order_eq d.length j hj
        omega
  · intro i hi1 hi2
    rw [hget i (by omega), hget (i + 1) (by omega), ← hdget (i + 1) (by omega)]
    have hnot : i + 1 ∉ (Finset.range d.length).filter
        (fun j => o.getD j 0 < o.getD (i + 1) 0) := by
      simp
    rw [stride_at_eq_prod d o (i + 1) ((Finset.range d.length).filter
        (fun j => o.getD j 0 < o.getD (i + 1) 0)) (by intro j; simp)]
    rw [stride_at_eq_prod d o i (insert (i + 1) ((Finset.range d.length).filter
        (fun j => o.getD j 0 < o.getD (i + 1) 0)))]
    · rw [Finset.prod_insert hnot, mul_comm]
    · intro j
      rw [Finset.mem_insert, Finset.mem_filter, Finset.mem_range]
      have ei := NHWC_order_eq d.length i (by omega)
      have es := NHWC_order_eq d.length (i + 1) (by omega)
      constructor
      · rintro (h | ⟨hj, hlt⟩)
        · subst h
          refine ⟨by omega, ?_⟩
          rw [hord _ (by omega), hord i (by omega)]
          omega
        · refine ⟨hj, ?_⟩
          have ej := NHWC_order_eq d.length j hj
          rw [hord j hj, hord _ (by omega)] at hlt
          rw [hord j hj, hord i (by omega)]
          omega
      · rintro ⟨hj, hlt⟩
        by_cases hji : j = i + 1
        · exact Or.inl hji
        · right
          refine ⟨hj, ?_⟩
          have ej := NHWC_order_eq d.length j hj
          rw [hord j hj, hord i (by omega)] at hlt
          rw [hord j hj, hord _ (by omega)]
          omega
  · rw [hget 0 (by omega), stride_at_eq_prod d o 0 (Finset.Ico 1 d.length)]
    · exact prod_Ico_getD d
    · intro j
      rw [Finset.mem_Ico]
      have e0 := NHWC_order_eq d.length 0 (by omega)
      constructor
      · rintro ⟨h1, hj⟩
        refine ⟨hj, ?_⟩
        have ej := NHWC_order_eq d.length j hj
        rw [hord j hj, hord 0 (by omega)]
        omega
      · rintro ⟨hj, hlt⟩
        have ej := NHWC_order_eq d.length j hj
        rw [hord j hj, hord 0 (by omega)] at hlt
        omega

/-! ## Heap lemmas -/

theorem lt_length_of_deref {h : Heap} {p : Ptr} {t : Tensor_attributes}
    (hp : h.deref p = some t) : p < h.length := by
  unfold Heap.deref at hp
  rcases Nat.lt_or_ge p h.length with h1 | h1
  · exact h1
  · rw [List.getElem?_eq_none h1] at hp
    cases hp

theorem deref_store_self {h : Heap} {p : Ptr} {t : Tensor_attributes}
    (hp : h.deref p = some t) (t1 : Tensor_attributes) : (h.store p t1).deref p = some t1 := by
  have hlt := lt_length_of_deref hp
  unfold Heap.deref Heap.store at *
  simp [List.getElem?_set, hlt]

theorem deref_store_other (h : Heap) {p q : Ptr} (hq : q ≠ p) (t1 : Tensor_attributes) :
    (h.store p t1).deref q = h.deref q := by
  unfold Heap.deref Heap.store
  simp [List.getElem?_set, Ne.symm hq]

theorem store_deref_same {h : Heap} {p : Ptr} {t : Tensor_attributes}
    (hp : h.deref p = some t) : h.store p t = h := by
  have hlt := lt_length_of_deref hp
  unfold Heap.deref Heap.store at *
  apply List.ext_getElem?
  intro j
  by_cases hj : p = j
  · subst hj
    rw [List.getElem?_set, if_pos rfl, if_pos hlt, hp]
  · rw [List.getElem?_set]
    simp [hj]

theorem isEmpty_eq_true_iff {α : Type} (l : List α) : l.isEmpty = true ↔ l = [] := by
  cases l <;> simp

/-! ## The two expansions in closed form -/

theorem batchnorm_expand_eq (context : Context) (a : Batchnorm_inference_attributes)
    (h : Heap) (px py : Ptr) (x y : Tensor_attributes)
    (hX : slot a.inputs Batchnorm_inference_attributes.input_names.X = some px)
    (hx : h.deref px = some x)
    (hY : slot a.outputs Batchnorm_inference_attributes.output_names.Y = some py)
    (hy : h.deref py = some y) :
    BatchnormInferenceNode.expand_and_infer_properties context a h =
      if y.stride = [] then
        match default_stride (inferred_dim x y) with
        | none => none
        | some s => some (error_t.ok, a.fill_from_context context,
            h.store py { y with dim := inferred_dim x y, stride := s })
      else some (error_t.ok, a.fill_from_context context,
            h.store py { y with dim := inferred_dim x y }) := by
  have hin : (a.fill_from_context context).inputs = a.inputs := by
    unfold Batchnorm_inference_attributes.fill_from_context; split <;> rfl
  have hout : (a.fill_from_context context).outputs = a.outputs := by
    unfold Batchnorm_inference_attributes.fill_from_context; split <;> rfl
  unfold BatchnormInferenceNode.expand_and_infer_properties
  simp only [hin, hout, hX, hx, hY, hy]
  by_cases hd : y.dim = []
  · have hd' : y.dim.isEmpty = true := (isEmpty_eq_true_iff _).2 hd
    simp only [hd', if_true, Heap.set_dim, hy, deref_store_self hy, Heap.set_stride]
    simp only [inferred_dim, hd, if_true]
    by_cases hs : y.stride = []
    · have hs' : y.stride.isEmpty = true := (isEmpty_eq_true_iff _).2 hs
      simp only [hs', hs, if_true, default_stride]
      cases generate_stride x.dim (generate_NHWC_stride_order x.dim.length) with
      | none => rfl
      | some s => simp [Heap.store]
    · have hs' : ¬ (y.stride.isEmpty = true) := fun hc => hs ((isEmpty_eq_true_iff _).1 hc)
      simp [hs', hs]
  · have hd' : ¬ (y.dim.isEmpty = true) := fun hc => hd ((isEmpty_eq_true_iff _).1 hc)
    simp only [hd', if_false, hy, Heap.set_stride, Bool.false_eq_true]
    simp only [inferred_dim, hd, if_false]
    by_cases hs : y.stride = []
    · have hs' : y.stride.isEmpty = true := (isEmpty_eq_true_iff _).2 hs
      simp only [hs', hs, if_true, default_stride]
      cases generate_stride y.dim (generate_NHWC_stride_order y.dim.length) with
      | none => rfl
      | some s => rfl
    · have hs' : ¬ (y.stride.isEmpty = true) := fun hc => hs ((isEmpty_eq_true_iff _).1 hc)
      simp only [hs', hs, if_false, Bool.false_eq_true]
      rw [store_deref_same hy]

theorem dgrad_expand_eq (context : Context) (a : Conv_dgrad_attributes)
    (h : Heap) (pdx pw pdy : Ptr) (dx w dy : Tensor_attributes)
    (hDX : slot a.outputs Conv_dgrad_attributes.output_names.DX = some pdx)
    (hW : slot a.inputs Conv_dgrad_attributes.input_names.W = some pw)
    (hDY : slot a.inputs Conv_dgrad_attributes.input_names.DY = some pdy)
    (hdx : h.deref pdx = some dx) (hw : h.deref pw = some w) (hdy : h.deref pdy = some dy) :
    DgradNode.expand_and_infer_properties context a h =
      if dx.stride = [] then
        match default_stride dx.dim with
        | none => none
        | some s => some (error_t.ok, a.fill_from_context context,
            h.store pdx { dx with stride := s })
      else some (error_t.ok, a.fill_from_context context, h) := by
  have hin : (a.fill_from_context context).inputs = a.inputs := by
    unfold Conv_dgrad_attributes.fill_from_context; split <;> rfl
  have hout : (a.fill_from_context context).outputs = a.outputs := by
    unfold Conv_dgrad_attributes.fill_from_context; split <;> rfl
  unfold DgradNode.expand_and_infer_properties
  simp only [hin, hout, hDX, hW, hDY, hdx, hw, hdy]
  by_cases hs : dx.stride = []
  · have hs' : dx.stride.isEmpty = true := (isEmpty_eq_true_iff _).2 hs
    simp only [hs', hs, if_true, default_stride, Heap.set_stride, hdx]
    cases generate_stride dx.dim (generate_NHWC_stride_order dx.dim.length) with
    | none => rfl
    | some s => rfl
  · have hs' : ¬ (dx.stride.isEmpty = true) := fun hc => hs ((isEmpty_eq_true_iff _).1 hc)
    simp only [hs', hs, if_false, Bool.false_eq_true]

theorem default_stride_2d (N C : Int) : default_stride [N, C] = some [C, 1] := by
  have h : default_stride [N, C] = some [C * 1, 1] := rfl
  rw [h, mul_one]

theorem default_stride_4d (N C H W : Int) :
    default_stride [N, C, H, W] = some [H * W * C, 1, W * C, C] := by
  have h : default_stride [N, C, H, W] = some [C * (H * (W * 1)), 1, C * (W * 1), C * 1] :=
    rfl
  have e0 : C * (H * (W * 1)) = H * W * C := by ring
  have e2 : C * (W * 1) = W * C := by ring
  rw [h, e0, e2, mul_one]

theorem default_stride_5d (N C D H W : Int) :
    default_stride [N, C, D, H, W] = some [D * H * W * C, 1, H * W * C, W * C, C] := by
  have h : default_stride [N, C, D, H, W] =
      some [C * (D * (H * (W * 1))), 1, C * (H * (W * 1)), C * (W * 1), C * 1] := rfl
  have e0 : C * (D * (H * (W * 1))) = D * H * W * C := by ring
  have e2 : C * (H * (W * 1)) = H * W * C := by ring
  have e3 : C * (W * 1) = W * C := by ring
  rw [h, e0, e2, e3, mul_one]

/-! ## The validation macro -/

theorem slot_eq_none_iff {α : Type} [DecidableEq α] (m : List (α × Option Ptr)) (port : α) :
    slot m port = none ↔ find m port = none ∨ find m port = some none := by
  unfold slot
  cases hf : find m port with
  | none => simp
  | some v =>
    cases v with
    | none => simp
    | some p => simp

theorem validate_of_slot_none {α : Type} [DecidableEq α] (m : List (α × Option Ptr))
    (port : α) (h : slot m port = none) :
    CUDNN_FE_VALIDATE_TENSOR m port
      = some ⟨error_code_t.InvalidInput, "Tensor not set"⟩ := by
  unfold CUDNN_FE_VALIDATE_TENSOR
  rcases (slot_eq_none_iff m port).1 h with h1 | h1 <;> rw [h1]

theorem validate_cases {α : Type} [DecidableEq α] (m : List (α × Option Ptr)) (port : α) :
    CUDNN_FE_VALIDATE_TENSOR m port = none ∨
    CUDNN_FE_VALIDATE_TENSOR m port
      = some ⟨error_code_t.InvalidInput, "Tensor not set"⟩ := by
  unfold CUDNN_FE_VALIDATE_TENSOR
  cases hf : find m port with
  | none => right; rfl
  | some v =>
    cases v with
    | none => right; rfl
    | some p => left; rfl

/-! ## Binding a registered slot -/

theorem bound_of_registered {α : Type} [DecidableEq α] {m : List (α × Option Ptr)}
    {port : α} {heap : Heap} {tensors : Registry} {T : Tensor}
    (h : registered_tensor m port heap tensors = some T) :
    ∃ p, (∀ (σ : Type) (s : σ) (k : Ptr → Outcome σ),
        CUDNN_FE_VALIDATE_AND_ASSIGN_TENSOR m port s k = k p) ∧
      (∀ (σ : Type) (k : Tensor → Outcome σ), tensors_at heap tensors p k = k T) := by
  unfold registered_tensor at h
  cases hs : slot m port with
  | none => rw [hs] at h; cases h
  | some p =>
    rw [hs] at h
    have hf : find m port = some (some p) := by
      unfold slot at hs
      cases hfm : find m port with
      | none => rw [hfm] at hs; cases hs
      | some v =>
        cases v with
        | none => rw [hfm] at hs; cases hs
        | some q => rw [hfm] at hs; cases hs; rfl
    refine ⟨p, ?_, ?_⟩
    · intro σ s k
      unfold CUDNN_FE_VALIDATE_AND_ASSIGN_TENSOR
      rw [hf]
    · intro σ k
      unfold tensors_at
      simp only at h
      cases hd : heap.deref p with
      | none => rw [hd] at h; cases h
      | some t =>
        rw [hd] at h
        simp only at h ⊢
        cases hu : t.uid with
        | none => simp only [hu] at h; cases h
        | some u =>
          simp only [hu] at h ⊢
          rw [h]

/-! ## Registration -/

theorem at?_insert (r : Registry) (k : Int) (v : Tensor) (u : Int) :
    (r.insert k v).at? u = if u = k then some v else r.at? u := by
  induction r with
  | nil =>
    simp only [Registry.insert, Registry.at?]
    by_cases h : u = k
    · rw [if_pos h, if_pos h.symm]
    · rw [if_neg h, if_neg (Ne.symm h)]
  | cons e rest ih =>
    obtain ⟨k1, t0⟩ := e
    by_cases h1 : k1 = k
    · simp only [Registry.insert, if_pos h1, Registry.at?]
      by_cases h : u = k
      · rw [if_pos h, if_pos h.symm]
      · rw [if_neg h, if_neg (Ne.symm h), if_neg (by rw [h1]; exact Ne.symm h)]
    · simp only [Registry.insert, if_neg h1, Registry.at?, ih]
      by_cases h : u = k
      · rw [if_pos h, if_neg (by rw [h]; exact h1), if_pos h]
      · rw [if_neg h, if_neg h]

theorem contains_insert_self (r : Registry) (k : Int) (v : Tensor) :
    (r.insert k v).contains k = true := by
  unfold Registry.contains
  rw [at?_insert, if_pos rfl]
  rfl

theorem contains_insert_of_contains (r : Registry) (k : Int) (v : Tensor) (u : Int)
    (h : r.contains u = true) : (r.insert k v).contains u = true := by
  unfold Registry.contains at *
  rw [at?_insert]
  by_cases hu : u = k
  · rw [if_pos hu]; rfl
  · rw [if_neg hu]; exact h

theorem create_cudnn_tensor_of_registered
    (tensor_build : Tensor_attributes → Option Tensor) (p : Ptr) (s : Assembler)
    (h : is_registered_at p s) :
    create_cudnn_tensor tensor_build p s = some (error_t.ok, s) := by
  obtain ⟨t, h1, h2⟩ := h
  unfold create_cudnn_tensor
  rw [h1]
  simp only [h2, if_true]

theorem create_cudnn_tensor_registers
    (tensor_build : Tensor_attributes → Option Tensor) (p : Ptr) (s s1 : Assembler)
    (e : error_t) (h : create_cudnn_tensor tensor_build p s = some (e, s1))
    (he : e.code = error_code_t.OK) :
    is_registered_at p s1 ∧ ∀ q, is_registered_at q s → is_registered_at q s1 := by
  unfold create_cudnn_tensor at h
  cases hd : s.heap.deref p with
  | none => rw [hd] at h; cases h
  | some t =>
    rw [hd] at h
    simp only at h
    by_cases hr : is_registered s.tensors t = true
    · rw [if_pos hr] at h
      cases h
      exact ⟨⟨t, hd, hr⟩, fun _ hq => hq⟩
    · rw [if_neg hr] at h
      cases hb : tensor_build { t with uid := some s.uid } with
      | none =>
        rw [hb] at h
        cases h
        cases he
      | some backend_tensor =>
        rw [hb] at h
        cases h
        constructor
        · refine ⟨{ t with uid := some s.uid }, deref_store_self hd _, ?_⟩
          simp only [is_registered]
          exact contains_insert_self _ _ _
        · rintro q ⟨tq, hq1, hq2⟩
          have hne : q ≠ p := by
            intro hc
            rw [hc, hd] at hq1
            cases hq1
            exact hr hq2
          refine ⟨tq, ?_, ?_⟩
          · show (s.heap.store p _).deref q = some tq
            rw [deref_store_other _ hne]
            exact hq1
          · unfold is_registered at hq2 ⊢
            cases hu : tq.uid with
            | none => rw [hu] at hq2; cases hq2
            | some u =>
              rw [hu] at hq2
              exact contains_insert_of_contains _ _ _ _ hq2

theorem check_eq_none_iff (e : error_t) :
    CHECK_CUDNN_FRONTEND_ERROR e = none ↔ e.code = error_code_t.OK := by
  unfold CHECK_CUDNN_FRONTEND_ERROR
  by_cases h : e.code = error_code_t.OK
  · simp [h]
  · simp [h]

theorem check_eq_some (e err : error_t) (h : CHECK_CUDNN_FRONTEND_ERROR e = some err) :
    err.code ≠ error_code_t.OK := by
  unfold CHECK_CUDNN_FRONTEND_ERROR at h
  by_cases hc : e.code = error_code_t.OK
  · rw [if_pos hc] at h; cases h
  · rw [if_neg hc] at h; cases h; exact hc

theorem create_cudnn_tensors_loop_of_registered {α : Type}
    (tensor_build : Tensor_attributes → Option Tensor) (l : List (α × Option Ptr))
    (s : Assembler) (h : ∀ k p, (k, some p) ∈ l → is_registered_at p s) :
    create_cudnn_tensors_loop tensor_build l s = some (error_t.ok, s) := by
  induction l with
  | nil => rfl
  | cons entry rest ih =>
    obtain ⟨k, v⟩ := entry
    have hrest : ∀ k p, (k, some p) ∈ rest → is_registered_at p s :=
      fun k p hm => h k p (List.mem_cons_of_mem _ hm)
    cases v with
    | none =>
      simp only [create_cudnn_tensors_loop]
      exact ih hrest
    | some p =>
      simp only [create_cudnn_tensors_loop]
      rw [create_cudnn_tensor_of_registered tensor_build p s (h k p (List.mem_cons_self _ _))]
      simp only [(check_eq_none_iff error_t.ok).2 rfl]
      exact ih hrest

theorem create_cudnn_tensors_loop_registers {α : Type}
    (tensor_build : Tensor_attributes → Option Tensor) (l : List (α × Option Ptr)) :
    ∀ (s s1 : Assembler) (e : error_t),
      create_cudnn_tensors_loop tensor_build l s = some (e, s1) →
      e.code = error_code_t.OK →
      (∀ k p, (k, some p) ∈ l → is_registered_at p s1) ∧
      ∀ q, is_registered_at q s → is_registered_at q s1 := by
  induction l with
  | nil =>
    intro s s1 e h _
    simp only [create_cudnn_tensors_loop] at h
    cases h
    exact ⟨fun k p hm => (by cases hm), fun _ hq => hq⟩
  | cons entry rest ih =>
    intro s s1 e h he
    obtain ⟨k, v⟩ := entry
    cases v with
    | none =>
      simp only [create_cudnn_tensors_loop] at h
      obtain ⟨h1, h2⟩ := ih s s1 e h he
      refine ⟨fun k1 p hm => ?_, h2⟩
      rcases List.mem_cons.1 hm with hm | hm
      · cases hm
      · exact h1 k1 p hm
    | some p =>
      simp only [create_cudnn_tensors_loop] at h
      cases hstep : create_cudnn_tensor tensor_build p s with
      | none => rw [hstep] at h; cases h
      | some r =>
        obtain ⟨e0, s0⟩ := r
        rw [hstep] at h
        simp only at h
        cases hc : CHECK_CUDNN_FRONTEND_ERROR e0 with
        | some err =>
          rw [hc] at h
          cases h
          exact absurd he (check_eq_some _ _ hc)
        | none =>
          rw [hc] at h
          obtain ⟨g1, g2⟩ := create_cudnn_tensor_registers tensor_build p s s0 e0 hstep
            ((check_eq_none_iff e0).1 hc)
          obtain ⟨h1, h2⟩ := ih s0 s1 e h he
          refine ⟨fun k1 q hm => ?_, fun q hq => h2 q (g2 q hq)⟩
          rcases List.mem_cons.1 hm with hm | hm
          · cases hm
            exact h2 p g1
          · exact h1 k1 q hm

theorem create_cudnn_tensors_body_idempotent {α β : Type}
    (tensor_build : Tensor_attributes → Option Tensor)
    (inputs : List (α × Option Ptr)) (outputs : List (β × Option Ptr))
    (s s1 : Assembler) (e : error_t)
    (h : create_cudnn_tensors_body tensor_build inputs outputs s = some (e, s1))
    (he : e.code = error_code_t.OK) :
    create_cudnn_tensors_body tensor_build inputs outputs s1 = some (error_t.ok, s1) := by
  unfold create_cudnn_tensors_body at h
  cases hin : create_cudnn_tensors_loop tensor_build inputs s with
  | none => rw [hin] at h; cases h
  | some r =>
    obtain ⟨e0, s0⟩ := r
    rw [hin] at h
    simp only at h
    cases hc : CHECK_CUDNN_FRONTEND_ERROR e0 with
    | some err =>
      rw [hc] at h
      cases h
      exact absurd he (check_eq_some _ _ hc)
    | none =>
      rw [hc] at h
      obtain ⟨g1, _⟩ := create_cudnn_tensors_loop_registers tensor_build inputs s s0 e0 hin
        ((check_eq_none_iff e0).1 hc)
      obtain ⟨h1, h2⟩ := create_cudnn_tensors_loop_registers tensor_build outputs s0 s1 e h he
      unfold create_cudnn_tensors_body
      rw [create_cudnn_tensors_loop_of_registered tensor_build inputs s1
        (fun k p hm => h2 p (g1 k p hm))]
      simp only [(check_eq_none_iff error_t.ok).2 rfl]
      exact create_cudnn_tensors_loop_of_registered tensor_build outputs s1 h1

/-! ## The output map of a dgrad node -/

theorem dgrad_outputs_head (outputs : List (Conv_dgrad_attributes.output_names × Option Ptr))
    (pdx : Ptr) (h : slot outputs Conv_dgrad_attributes.output_names.DX = some pdx) :
    ∃ rest, outputs = (Conv_dgrad_attributes.output_names.DX, some pdx) :: rest := by
  cases outputs with
  | nil => simp [slot, find] at h
  | cons e rest =>
    obtain ⟨k, v⟩ := e
    cases k
    cases v with
    | none => simp [slot, find] at h
    | some q =>
      simp [slot, find] at h
      exact ⟨rest, by rw [h]⟩

/-! ## C1 -/

/-- C1: for every batchnorm node whose X and Y slots are present and whose Y dimension
list is empty before the call, `expand_and_infer_properties` returns OK and afterwards the
dimension list of Y equals the dimension list of X (which the call leaves as it was). -/
theorem C1_batchnorm_infers_dims (context : Context) (a : Batchnorm_inference_attributes)
    (h : Heap) (px py : Ptr) (x y : Tensor_attributes)
    (hX : slot a.inputs Batchnorm_inference_attributes.input_names.X = some px)
    (hx : h.deref px = some x)
    (hY : slot a.outputs Batchnorm_inference_attributes.output_names.Y = some py)
    (hy : h.deref py = some y)
    (hdim : y.dim = []) :
    ∃ a1 h1 x1 y1,
      BatchnormInferenceNode.expand_and_infer_properties context a h
        = some (error_t.ok, a1, h1) ∧
      h1.deref px = some x1 ∧ h1.deref py = some y1 ∧
      x1.dim = x.dim ∧ y1.dim = x.dim := by
  have hinf : inferred_dim x y = x.dim := by simp [inferred_dim, hdim]
  rw [batchnorm_expand_eq context a h px py x y hX hx hY hy, hinf]
  have key : ∀ t : Tensor_attributes, t.dim = x.dim →
      ∃ x1 y1, (h.store py t).deref px = some x1 ∧ (h.store py t).deref py = some y1 ∧
        x1.dim = x.dim ∧ y1.dim = x.dim := by
    intro t ht
    refine ⟨if px = py then t else x, t, ?_, deref_store_self hy t, ?_, ht⟩
    · by_cases hp : px = py
      · rw [if_pos hp, hp]; exact deref_store_self hy t
      · rw [if_neg hp, deref_store_other h hp t]; exact hx
    · by_cases hp : px = py
      · rw [if_pos hp]; exact ht
      · rw [if_neg hp]
  by_cases hs : y.stride = []
  · rw [if_pos hs, default_stride_eq]
    obtain ⟨x1, y1, e1, e2, e3, e4⟩ := key { y with dim := x.dim, stride := _ } rfl
    exact ⟨_, _, x1, y1, rfl, e1, e2, e3, e4⟩
  · rw [if_neg hs]
    obtain ⟨x1, y1, e1, e2, e3, e4⟩ := key { y with dim := x.dim } rfl
    exact ⟨_, _, x1, y1, rfl, e1, e2, e3, e4⟩

/-- C1 at the end-to-end scenario, X `[8,64,32,32]` and Y unset, and at a one-dimensional
X `[64]` with Y unset. -/
theorem C1_batchnorm_infers_dims_witness :
    (∃ a1 h1 x1 y1,
      BatchnormInferenceNode.expand_and_infer_properties example_context example_batchnorm
        example_batchnorm_heap = some (error_t.ok, a1, h1) ∧
      h1.deref 0 = some x1 ∧ h1.deref 5 = some y1 ∧
      x1.dim = [8, 64, 32, 32] ∧ y1.dim = [8, 64, 32, 32]) ∧
    (∃ a1 h1 x1 y1,
      BatchnormInferenceNode.expand_and_infer_properties example_context example_batchnorm
        low_rank_batchnorm_heap = some (error_t.ok, a1, h1) ∧
      h1.deref 0 = some x1 ∧ h1.deref 5 = some y1 ∧
      x1.dim = [64] ∧ y1.dim = [64]) :=
  ⟨C1_batchnorm_infers_dims example_context example_batchnorm example_batchnorm_heap 0 5
      (unset_tensor [8, 64, 32, 32]) (unset_tensor []) (by decide) (by decide) (by decide)
      (by decide) (by decide),
   C1_batchnorm_infers_dims example_context example_batchnorm low_rank_batchnorm_heap 0 5
      (unset_tensor [64]) (unset_tensor []) (by decide) (by decide) (by decide)
      (by decide) (by decide)⟩

/-! ## C2 -/

/-- C2: for every batchnorm node whose Y has an empty stride list before the call and
whose dimensions after the call (its own, or those inferred from X) have rank at least
two, `expand_and_infer_properties` returns OK and the stride of Y is the NHWC default of
those dimensions `d`: as long as `d`, `stride[1] = 1`, `stride[r-1] = d[1]` when `r > 2`,
`stride[i] = stride[i+1] * d[i+1]` for `2 ≤ i < r-1`, and `stride[0] = d[1] * ... * d[r-1]`;
for `[N,C]` it is `[C,1]`, for `[N,C,H,W]` it is `[H*W*C, 1, W*C, C]`, for `[N,C,D,H,W]`
it is `[D*H*W*C, 1, H*W*C, W*C, C]`. -/
theorem C2_batchnorm_NHWC_stride (context : Context) (a : Batchnorm_inference_attributes)
    (h : Heap) (px py : Ptr) (x y : Tensor_attributes)
    (hX : slot a.inputs Batchnorm_inference_attributes.input_names.X = some px)
    (hx : h.deref px = some x)
    (hY : slot a.outputs Batchnorm_inference_attributes.output_names.Y = some py)
    (hy : h.deref py = some y)
    (hstride : y.stride = [])
    (hrank : 2 ≤ (inferred_dim x y).length) :
    ∃ a1 h1 y1,
      BatchnormInferenceNode.expand_and_infer_properties context a h
        = some (error_t.ok, a1, h1) ∧
      h1.deref py = some y1 ∧ y1.dim = inferred_dim x y ∧
      y1.stride.length = y1.dim.length ∧
      y1.stride.getD 1 0 = 1 ∧
      (2 < y1.dim.length → y1.stride.getD (y1.dim.length - 1) 0 = y1.dim.getD 1 0) ∧
      (∀ i, 2 ≤ i → i < y1.dim.length - 1 →
        y1.stride.getD i 0 = y1.stride.getD (i + 1) 0 * y1.dim.getD (i + 1) 0) ∧
      y1.stride.getD 0 0 = y1.dim.tail.prod ∧
      (∀ N C, y1.dim = [N, C] → y1.stride = [C, 1]) ∧
      (∀ N C H W, y1.dim = [N, C, H, W] → y1.stride = [H * W * C, 1, W * C, C]) ∧
      (∀ N C D H W, y1.dim = [N, C, D, H, W] →
        y1.stride = [D * H * W * C, 1, H * W * C, W * C, C]) := by
  rw [batchnorm_expand_eq context a h px py x y hX hx hY hy, if_pos hstride]
  obtain ⟨s, hs, h1, h2, h3, h4, h5⟩ := default_stride_spec (inferred_dim x y) hrank
  rw [hs]
  refine ⟨_, _, { y with dim := inferred_dim x y, stride := s }, rfl,
    deref_store_self hy _, rfl, h1, h2, h3, h4, h5, ?_, ?_, ?_⟩
  · intro N C hd
    have hd' : inferred_dim x y = [N, C] := hd
    rw [hd', default_stride_2d] at hs
    exact (Option.some.inj hs).symm
  · intro N C H W hd
    have hd' : inferred_dim x y = [N, C, H, W] := hd
    rw [hd', default_stride_4d] at hs
    exact (Option.some.inj hs).symm
  · intro N C D H W hd
    have hd' : inferred_dim x y = [N, C, D, H, W] := hd
    rw [hd', default_stride_5d] at hs
    exact (Option.some.inj hs).symm

/-- C2 at the end-to-end scenario: X `[8,64,32,32]` and Y unset give Y the stride
`[65536,1,2048,64]`. -/
theorem C2_batchnorm_NHWC_stride_witness :
    ∃ a1 h1 y1,
      BatchnormInferenceNode.expand_and_infer_properties example_context example_batchnorm
        example_batchnorm_heap = some (error_t.ok, a1, h1) ∧
      h1.deref 5 = some y1 ∧ y1.dim = [8, 64, 32, 32] ∧
      y1.stride = [65536, 1, 2048, 64] := by
  obtain ⟨a1, h1, y1, e1, e2, e3, _, _, _, _, _, _, e4, _⟩ :=
    C2_batchnorm_NHWC_stride example_context example_batchnorm example_batchnorm_heap 0 5
      (unset_tensor [8, 64, 32, 32]) (unset_tensor []) (by decide) (by decide) (by decide)
      (by decide) (by decide) (by decide)
  have e3' : y1.dim = [8, 64, 32, 32] := e3
  exact ⟨a1, h1, y1, e1, e2, e3', by rw [e4 8 64 32 32 e3']; decide⟩

/-! ## C3 -/

/-- C3: dgrad with the dimensions of DX unset. For every dgrad node whose DY, W and DX
slots are present and whose DX dimension list is empty, whatever the dimensions of W and
DY, `expand_and_infer_properties` returns OK without inferring the dimensions of DX, which
are still empty afterwards, and `post_validate_node` run on the result fails with the
kind `InvalidInput`. -/
theorem C3_dgrad_unset_dims_rejected (context : Context) (a : Conv_dgrad_attributes)
    (h : Heap) (pdx pw pdy : Ptr) (dx w dy : Tensor_attributes)
    (hDX : slot a.outputs Conv_dgrad_attributes.output_names.DX = some pdx)
    (hW : slot a.inputs Conv_dgrad_attributes.input_names.W = some pw)
    (hDY : slot a.inputs Conv_dgrad_attributes.input_names.DY = some pdy)
    (hdx : h.deref pdx = some dx) (hw : h.deref pw = some w) (hdy : h.deref pdy = some dy)
    (hdim : dx.dim = []) :
    ∃ a1 h1 dx1 e,
      DgradNode.expand_and_infer_properties context a h = some (error_t.ok, a1, h1) ∧
      h1.deref pdx = some dx1 ∧ dx1.dim = [] ∧
      DgradNode.post_validate_node a1 h1 = some e ∧
      e.code = error_code_t.InvalidInput := by
  rw [dgrad_expand_eq context a h pdx pw pdy dx w dy hDX hW hDY hdx hw hdy]
  have hout : (a.fill_from_context context).outputs = a.outputs := by
    unfold Conv_dgrad_attributes.fill_from_context; split <;> rfl
  obtain ⟨rest, hrest⟩ := dgrad_outputs_head a.outputs pdx hDX
  have hpost : ∀ (h1 : Heap) (t : Tensor_attributes), h1.deref pdx = some t → t.dim = [] →
      DgradNode.post_validate_node (a.fill_from_context context) h1
        = some ⟨error_code_t.InvalidInput, "Tensor dims or strides not set"⟩ := by
    intro h1 t ht htd
    unfold DgradNode.post_validate_node
    rw [hout, hrest]
    simp [validate_outputs, ht, htd, CHECK_CUDNN_FRONTEND_ERROR, or_else]
  by_cases hs : dx.stride = []
  · rw [if_pos hs, default_stride_eq]
    obtain ⟨s1, hs1⟩ : ∃ s1, s1 = (List.range dx.dim.length).map
        (stride_at dx.dim (generate_NHWC_stride_order dx.dim.length)) := ⟨_, rfl⟩
    rw [← hs1]
    have hd : (h.store pdx { dx with stride := s1 }).deref pdx
        = some { dx with stride := s1 } := deref_store_self hdx _
    exact ⟨_, _, { dx with stride := s1 }, _, rfl, hd, hdim, hpost _ _ hd hdim, rfl⟩
  · rw [if_neg hs]
    exact ⟨_, _, dx, _, rfl, hdx, hdim, hpost h dx hdx hdim, rfl⟩

/-- C3 at the end-to-end dgrad scenario: W `[64,64,3,3]`, DY `[8,64,30,30]`, DX unset. -/
theorem C3_dgrad_unset_dims_rejected_witness :
    ∃ a1 h1 dx1 e,
      DgradNode.expand_and_infer_properties example_context example_dgrad
        example_dgrad_heap = some (error_t.ok, a1, h1) ∧
      h1.deref 2 = some dx1 ∧ dx1.dim = [] ∧
      DgradNode.post_validate_node a1 h1 = some e ∧
      e.code = error_code_t.InvalidInput :=
  C3_dgrad_unset_dims_rejected example_context example_dgrad example_dgrad_heap 2 1 0
    (unset_tensor []) (unset_tensor [64, 64, 3, 3]) (unset_tensor [8, 64, 30, 30])
    (by decide) (by decide) (by decide) (by decide) (by decide) (by decide) (by decide)

/-! ## C4 -/

/-- C4: for every dgrad node whose DX has a dimension list `d` of rank `r ≥ 2` and an
empty stride list, and for every W and DY, `expand_and_infer_properties` returns OK, leaves
the dimension list of DX equal to `d`, and sets the stride of DX to the NHWC default of
`d`: `stride[1] = 1`, `stride[r-1] = d[1]` when `r > 2`, `stride[i] = stride[i+1] * d[i+1]`
for `2 ≤ i < r-1`, and `stride[0] = d[1] * ... * d[r-1]`. -/
theorem C4_dgrad_supplied_dims (context : Context) (a : Conv_dgrad_attributes)
    (h : Heap) (pdx pw pdy : Ptr) (dx w dy : Tensor_attributes)
    (hDX : slot a.outputs Conv_dgrad_attributes.output_names.DX = some pdx)
    (hW : slot a.inputs Conv_dgrad_attributes.input_names.W = some pw)
    (hDY : slot a.inputs Conv_dgrad_attributes.input_names.DY = some pdy)
    (hdx : h.deref pdx = some dx) (hw : h.deref pw = some w) (hdy : h.deref pdy = some dy)
    (hrank : 2 ≤ dx.dim.length)
    (hstride : dx.stride = []) :
    ∃ a1 h1 dx1,
      DgradNode.expand_and_infer_properties context a h = some (error_t.ok, a1, h1) ∧
      h1.deref pdx = some dx1 ∧ dx1.dim = dx.dim ∧
      dx1.stride.length = dx.dim.length ∧
      dx1.stride.getD 1 0 = 1 ∧
      (2 < dx.dim.length → dx1.stride.getD (dx.dim.length - 1) 0 = dx.dim.getD 1 0) ∧
      (∀ i, 2 ≤ i → i < dx.dim.length - 1 →
        dx1.stride.getD i 0 = dx1.stride.getD (i + 1) 0 * dx.dim.getD (i + 1) 0) ∧
      dx1.stride.getD 0 0 = dx.dim.tail.prod := by
  rw [dgrad_expand_eq context a h pdx pw pdy dx w dy hDX hW hDY hdx hw hdy, if_pos hstride]
  obtain ⟨s, hs, h1, h2, h3, h4, h5⟩ := default_stride_spec dx.dim hrank
  rw [hs]
  exact ⟨_, _, { dx with stride := s }, rfl, deref_store_self hdx _, rfl, h1, h2, h3, h4, h5⟩

/-- C4 at DX `[8,64,32,32]`, W `[64,64,3,3]`, DY `[8,64,30,30]`: the stride of DX becomes
`[65536,1,2048,64]` and its dimensions stay. -/
theorem C4_dgrad_supplied_dims_witness :
    DgradNode.expand_and_infer_properties example_context example_dgrad supplied_dgrad_heap
      = some (error_t.ok, example_dgrad.fill_from_context example_context,
          [unset_tensor [8, 64, 30, 30], unset_tensor [64, 64, 3, 3],
           ⟨[8, 64, 32, 32], [65536, 1, 2048, 64], none, none⟩]) ∧
    ∃ a1 h1 dx1,
      DgradNode.expand_and_infer_properties example_context example_dgrad
        supplied_dgrad_heap = some (error_t.ok, a1, h1) ∧
      h1.deref 2 = some dx1 ∧ dx1.dim = [8, 64, 32, 32] ∧
      dx1.stride.length = 4 ∧
      dx1.stride.getD 1 0 = 1 ∧
      (2 < 4 → dx1.stride.getD (4 - 1) 0 = 64) ∧
      (∀ i, 2 ≤ i → i < 4 - 1 →
        dx1.stride.getD i 0 = dx1.stride.getD (i + 1) 0 *
          ([8, 64, 32, 32] : List Int).getD (i + 1) 0) ∧
      dx1.stride.getD 0 0 = 65536 :=
  ⟨by decide,
   C4_dgrad_supplied_dims example_context example_dgrad supplied_dgrad_heap 2 1 0
    (unset_tensor [8, 64, 32, 32]) (unset_tensor [64, 64, 3, 3])
    (unset_tensor [8, 64, 30, 30]) (by decide) (by decide) (by decide) (by decide)
    (by decide) (by decide) (by decide) (by decide)⟩

/-! ## C5 -/

/-- C5: `pre_validate_node` rejects a missing required slot. For a batchnorm node, if any
input slot (X, SCALE, BIAS, MEAN, INV_VARIANCE) or the output slot Y is absent or null, and
for a dgrad node, if any input slot (DY, W) or the output slot DX is absent or null, the
result has the kind `InvalidInput`, whatever the other slots, the heap and the
attribute-level check are. -/
theorem C5_pre_validate_rejects_missing_slot :
    (∀ (validate_inputs : Batchnorm_inference_attributes → Heap → error_t)
        (a : Batchnorm_inference_attributes) (h : Heap),
      ((∃ port, find a.inputs port = none ∨ find a.inputs port = some none) ∨
        (find a.outputs Batchnorm_inference_attributes.output_names.Y = none ∨
          find a.outputs Batchnorm_inference_attributes.output_names.Y = some none)) →
      (BatchnormInferenceNode.pre_validate_node validate_inputs a h).code
        = error_code_t.InvalidInput) ∧
    (∀ (validate_inputs : Conv_dgrad_attributes → Heap → error_t)
        (a : Conv_dgrad_attributes) (h : Heap),
      ((∃ port, find a.inputs port = none ∨ find a.inputs port = some none) ∨
        (find a.outputs Conv_dgrad_attributes.output_names.DX = none ∨
          find a.outputs Conv_dgrad_attributes.output_names.DX = some none)) →
      (DgradNode.pre_validate_node validate_inputs a h).code
        = error_code_t.InvalidInput) := by
  constructor
  · intro vi a h hmiss
    unfold BatchnormInferenceNode.pre_validate_node
    rcases hmiss with ⟨port, hp⟩ | hp
    · have hbad := validate_of_slot_none a.inputs port ((slot_eq_none_iff _ _).2 hp)
      have hX := validate_cases a.inputs Batchnorm_inference_attributes.input_names.X
      have hS := validate_cases a.inputs Batchnorm_inference_attributes.input_names.SCALE
      have hB := validate_cases a.inputs Batchnorm_inference_attributes.input_names.BIAS
      have hM := validate_cases a.inputs Batchnorm_inference_attributes.input_names.MEAN
      have hI := validate_cases a.inputs Batchnorm_inference_attributes.input_names.INV_VARIANCE
      cases port <;>
        rcases hX with hX | hX <;> rcases hS with hS | hS <;> rcases hB with hB | hB <;>
        rcases hM with hM | hM <;> rcases hI with hI | hI <;>
        simp_all [or_else]
    · have hbad := validate_of_slot_none a.outputs _ ((slot_eq_none_iff _ _).2 hp)
      have hX := validate_cases a.inputs Batchnorm_inference_attributes.input_names.X
      have hS := validate_cases a.inputs Batchnorm_inference_attributes.input_names.SCALE
      have hB := validate_cases a.inputs Batchnorm_inference_attributes.input_names.BIAS
      have hM := validate_cases a.inputs Batchnorm_inference_attributes.input_names.MEAN
      have hI := validate_cases a.inputs Batchnorm_inference_attributes.input_names.INV_VARIANCE
      rcases hX with hX | hX <;> rcases hS with hS | hS <;> rcases hB with hB | hB <;>
        rcases hM with hM | hM <;> rcases hI with hI | hI <;>
        simp [or_else, hX, hS, hB, hM, hI, hbad]
  · intro vi a h hmiss
    unfold DgradNode.pre_validate_node
    rcases hmiss with ⟨port, hp⟩ | hp
    · have hbad := validate_of_slot_none a.inputs port ((slot_eq_none_iff _ _).2 hp)
      have hD := validate_cases a.inputs Conv_dgrad_attributes.input_names.DY
      have hW := validate_cases a.inputs Conv_dgrad_attributes.input_names.W
      cases port <;> rcases hD with hD | hD <;> rcases hW with hW | hW <;>
        simp_all [or_else]
    · have hbad := validate_of_slot_none a.outputs _ ((slot_eq_none_iff _ _).2 hp)
      have hD := validate_cases a.inputs Conv_dgrad_attributes.input_names.DY
      have hW := validate_cases a.inputs Conv_dgrad_attributes.input_names.W
      rcases hD with hD | hD <;> rcases hW with hW | hW <;>
        simp [or_else, hD, hW, hbad]

/-- C5 at a batchnorm node whose SCALE slot holds the null pointer and at a dgrad node
that has no DX entry, all other slots being present, with an attribute-level check that
accepts everything. -/
theorem C5_pre_validate_rejects_missing_slot_witness :
    (BatchnormInferenceNode.pre_validate_node (fun _ _ => error_t.ok)
        { example_batchnorm with
          inputs := [(.X, some 0), (.MEAN, some 3), (.INV_VARIANCE, some 4), (.SCALE, none),
            (.BIAS, some 2)] }
        example_batchnorm_heap).code = error_code_t.InvalidInput ∧
    (DgradNode.pre_validate_node (fun _ _ => error_t.ok)
        { example_dgrad with outputs := [] } example_dgrad_heap).code
      = error_code_t.InvalidInput :=
  ⟨C5_pre_validate_rejects_missing_slot.1 (fun _ _ => error_t.ok) _ example_batchnorm_heap
      (Or.inl ⟨Batchnorm_inference_attributes.input_names.SCALE, Or.inr (by decide)⟩),
   C5_pre_validate_rejects_missing_slot.2 (fun _ _ => error_t.ok) _ example_dgrad_heap
      (Or.inr (Or.inl (by decide)))⟩

/-! ## C6 -/

/-- C6, as stated, fails: in the end-to-end batchnorm scenario the input X has dimensions
`[8,64,32,32]` and an empty stride list before the call, the NHWC default for them is
`[65536,1,2048,64]`, and after the call the stride list of X is still empty; only Y has
been given a stride. -/
theorem C6_counterexample :
    example_batchnorm_heap.deref 0 = some ⟨[8, 64, 32, 32], [], none, none⟩ ∧
    default_stride [8, 64, 32, 32] = some [65536, 1, 2048, 64] ∧
    ∃ a1 h1,
      BatchnormInferenceNode.expand_and_infer_properties example_context example_batchnorm
        example_batchnorm_heap = some (error_t.ok, a1, h1) ∧
      h1.deref 0 = some ⟨[8, 64, 32, 32], [], none, none⟩ ∧
      h1.deref 5 = some ⟨[8, 64, 32, 32], [65536, 1, 2048, 64], none, none⟩ := by
  exact ⟨by decide, by decide, example_batchnorm.fill_from_context example_context,
    expanded_batchnorm_heap, by decide, by decide, by decide⟩

/-- C6, amended: stride defaulting covers the output only. Whenever
`expand_and_infer_properties` returns on a batchnorm node (output Y) or a dgrad node
(output DX), it returns OK, the output tensor whose stride list was empty has the NHWC
default stride of its dimensions, and every descriptor other than the output, the inputs
X, SCALE, BIAS, MEAN, INV_VARIANCE and DY, W among them, is exactly as it was before the
call. -/
theorem C6_only_output_stride_defaulted (context : Context) :
    (∀ (a : Batchnorm_inference_attributes) (h : Heap) (px py : Ptr)
        (x y : Tensor_attributes),
      slot a.inputs Batchnorm_inference_attributes.input_names.X = some px →
      h.deref px = some x →
      slot a.outputs Batchnorm_inference_attributes.output_names.Y = some py →
      h.deref py = some y →
      ∀ e a1 h1,
        BatchnormInferenceNode.expand_and_infer_properties context a h = some (e, a1, h1) →
        e = error_t.ok ∧
        (∀ q, q ≠ py → h1.deref q = h.deref q) ∧
        (y.stride = [] →
          ∃ y1, h1.deref py = some y1 ∧ default_stride y1.dim = some y1.stride)) ∧
    (∀ (a : Conv_dgrad_attributes) (h : Heap) (pdx pw pdy : Ptr)
        (dx w dy : Tensor_attributes),
      slot a.outputs Conv_dgrad_attributes.output_names.DX = some pdx →
      slot a.inputs Conv_dgrad_attributes.input_names.W = some pw →
      slot a.inputs Conv_dgrad_attributes.input_names.DY = some pdy →
      h.deref pdx = some dx → h.deref pw = some w → h.deref pdy = some dy →
      ∀ e a1 h1,
        DgradNode.expand_and_infer_properties context a h = some (e, a1, h1) →
        e = error_t.ok ∧
        (∀ q, q ≠ pdx → h1.deref q = h.deref q) ∧
        (dx.stride = [] →
          ∃ dx1, h1.deref pdx = some dx1 ∧ default_stride dx1.dim = some dx1.stride)) := by
  constructor
  · intro a h px py x y hX hx hY hy e a1 h1 hrun
    rw [batchnorm_expand_eq context a h px py x y hX hx hY hy] at hrun
    by_cases hs : y.stride = []
    · rw [if_pos hs] at hrun
      cases hd : default_stride (inferred_dim x y) with
      | none => rw [hd] at hrun; cases hrun
      | some s =>
        rw [hd] at hrun
        cases hrun
        exact ⟨rfl, fun q hq => deref_store_other h hq _,
          fun _ => ⟨_, deref_store_self hy _, hd⟩⟩
    · rw [if_neg hs] at hrun
      cases hrun
      exact ⟨rfl, fun q hq => deref_store_other h hq _, fun hc => absurd hc hs⟩
  · intro a h pdx pw pdy dx w dy hDX hW hDY hdx hw hdy e a1 h1 hrun
    rw [dgrad_expand_eq context a h pdx pw pdy dx w dy hDX hW hDY hdx hw hdy] at hrun
    by_cases hs : dx.stride = []
    · rw [if_pos hs] at hrun
      cases hd : default_stride dx.dim with
      | none => rw [hd] at hrun; cases hrun
      | some s =>
        rw [hd] at hrun
        cases hrun
        exact ⟨rfl, fun q hq => deref_store_other h hq _,
          fun _ => ⟨_, deref_store_self hdx _, hd⟩⟩
    · rw [if_neg hs] at hrun
      cases hrun
      exact ⟨rfl, fun _ _ => rfl, fun hc => absurd hc hs⟩

/-- C6 at the end-to-end batchnorm scenario and at the dgrad scenario with DX
`[8,64,32,32]`: the call returns, the inputs keep their empty stride lists, the output gets
the default. -/
theorem C6_only_output_stride_defaulted_witness :
    (BatchnormInferenceNode.expand_and_infer_properties example_context example_batchnorm
        example_batchnorm_heap
      = some (error_t.ok, example_batchnorm.fill_from_context example_context,
          expanded_batchnorm_heap) ∧
      (∀ q, q ≠ 5 → expanded_batchnorm_heap.deref q = example_batchnorm_heap.deref q) ∧
      ∃ y1, expanded_batchnorm_heap.deref 5 = some y1 ∧
        default_stride y1.dim = some y1.stride) ∧
    (DgradNode.expand_and_infer_properties example_context example_dgrad supplied_dgrad_heap
      = some (error_t.ok, example_dgrad.fill_from_context example_context,
          expanded_dgrad_heap) ∧
      (∀ q, q ≠ 2 → expanded_dgrad_heap.deref q = supplied_dgrad_heap.deref q) ∧
      ∃ dx1, expanded_dgrad_heap.deref 2 = some dx1 ∧
        default_stride dx1.dim = some dx1.stride) := by
  have hb : BatchnormInferenceNode.expand_and_infer_properties example_context
      example_batchnorm example_batchnorm_heap
      = some (error_t.ok, example_batchnorm.fill_from_context example_context,
          expanded_batchnorm_heap) := by decide
  have hd : DgradNode.expand_and_infer_properties example_context example_dgrad
      supplied_dgrad_heap
      = some (error_t.ok, example_dgrad.fill_from_context example_context,
          expanded_dgrad_heap) := by decide
  have b := (C6_only_output_stride_defaulted example_context).1 example_batchnorm
      example_batchnorm_heap 0 5 (unset_tensor [8, 64, 32, 32]) (unset_tensor [])
      (by decide) (by decide) (by decide) (by decide) _ _ _ hb
  have d := (C6_only_output_stride_defaulted example_context).2 example_dgrad
      supplied_dgrad_heap 2 1 0 (unset_tensor [8, 64, 32, 32]) (unset_tensor [64, 64, 3, 3])
      (unset_tensor [8, 64, 30, 30]) (by decide) (by decide) (by decide) (by decide)
      (by decide) (by decide) _ _ _ hd
  exact ⟨⟨hb, b.2.1, b.2.2 rfl⟩, ⟨hd, d.2.1, d.2.2 rfl⟩⟩

/-! ## C7 -/

/-- C7: caller-set shape data of the output is never recomputed. Whenever
`expand_and_infer_properties` returns on a batchnorm node (output Y) or a dgrad node
(output DX), a dimension list of the output that was non-empty before the call is the
same after it (also when the dimensions of Y differ from those of X), and a stride list of
the output that was non-empty before the call is the same after it (also when it is not an
NHWC stride); and with the stride list set the call does return. -/
theorem C7_caller_set_shape_kept (context : Context) :
    (∀ (a : Batchnorm_inference_attributes) (h : Heap) (px py : Ptr)
        (x y : Tensor_attributes),
      slot a.inputs Batchnorm_inference_attributes.input_names.X = some px →
      h.deref px = some x →
      slot a.outputs Batchnorm_inference_attributes.output_names.Y = some py →
      h.deref py = some y →
      (∀ e a1 h1,
        BatchnormInferenceNode.expand_and_infer_properties context a h = some (e, a1, h1) →
        ∃ y1, h1.deref py = some y1 ∧
          (y.dim ≠ [] → y1.dim = y.dim) ∧ (y.stride ≠ [] → y1.stride = y.stride)) ∧
      (y.stride ≠ [] → ∃ a1 h1,
        BatchnormInferenceNode.expand_and_infer_properties context a h
          = some (error_t.ok, a1, h1))) ∧
    (∀ (a : Conv_dgrad_attributes) (h : Heap) (pdx pw pdy : Ptr)
        (dx w dy : Tensor_attributes),
      slot a.outputs Conv_dgrad_attributes.output_names.DX = some pdx →
      slot a.inputs Conv_dgrad_attributes.input_names.W = some pw →
      slot a.inputs Conv_dgrad_attributes.input_names.DY = some pdy →
      h.deref pdx = some dx → h.deref pw = some w → h.deref pdy = some dy →
      (∀ e a1 h1,
        DgradNode.expand_and_infer_properties context a h = some (e, a1, h1) →
        ∃ dx1, h1.deref pdx = some dx1 ∧
          dx1.dim = dx.dim ∧ (dx.stride ≠ [] → dx1.stride = dx.stride)) ∧
      (dx.stride ≠ [] → ∃ a1 h1,
        DgradNode.expand_and_infer_properties context a h = some (error_t.ok, a1, h1))) := by
  constructor
  · intro a h px py x y hX hx hY hy
    rw [batchnorm_expand_eq context a h px py x y hX hx hY hy]
    have hinf : y.dim ≠ [] → inferred_dim x y = y.dim := by
      intro hd; simp [inferred_dim, hd]
    constructor
    · intro e a1 h1 hrun
      by_cases hs : y.stride = []
      · rw [if_pos hs] at hrun
        cases hd : default_stride (inferred_dim x y) with
        | none => rw [hd] at hrun; cases hrun
        | some s =>
          rw [hd] at hrun
          cases hrun
          exact ⟨_, deref_store_self hy _, hinf, fun hc => absurd hs hc⟩
      · rw [if_neg hs] at hrun
        cases hrun
        exact ⟨_, deref_store_self hy _, hinf, fun _ => rfl⟩
    · intro hs
      rw [if_neg hs]
      exact ⟨_, _, rfl⟩
  · intro a h pdx pw pdy dx w dy hDX hW hDY hdx hw hdy
    rw [dgrad_expand_eq context a h pdx pw pdy dx w dy hDX hW hDY hdx hw hdy]
    constructor
    · intro e a1 h1 hrun
      by_cases hs : dx.stride = []
      · rw [if_pos hs] at hrun
        cases hd : default_stride dx.dim with
        | none => rw [hd] at hrun; cases hrun
        | some s =>
          rw [hd] at hrun
          cases hrun
          exact ⟨_, deref_store_self hdx _, rfl, fun hc => absurd hs hc⟩
      · rw [if_neg hs] at hrun
        cases hrun
        exact ⟨dx, hdx, rfl, fun _ => rfl⟩
    · intro hs
      rw [if_neg hs]
      exact ⟨_, _, rfl⟩

/-- C7 at a batchnorm node whose Y was given dimensions `[4,4]`, unlike those of X, and
the stride `[1,1]`, which is not the NHWC one, and at a dgrad node whose DX was given the
same: the call returns and leaves both lists as they were. -/
theorem C7_caller_set_shape_kept_witness :
    (∃ a1 h1,
      BatchnormInferenceNode.expand_and_infer_properties example_context example_batchnorm
        caller_set_batchnorm_heap = some (error_t.ok, a1, h1) ∧
      ∃ y1, h1.deref 5 = some y1 ∧ y1.dim = [4, 4] ∧ y1.stride = [1, 1]) ∧
    (∃ a1 h1,
      DgradNode.expand_and_infer_properties example_context example_dgrad
        caller_set_dgrad_heap = some (error_t.ok, a1, h1) ∧
      ∃ dx1, h1.deref 2 = some dx1 ∧ dx1.dim = [4, 4] ∧ dx1.stride = [1, 1]) := by
  have b := (C7_caller_set_shape_kept example_context).1 example_batchnorm
      caller_set_batchnorm_heap 0 5 (unset_tensor [8, 64, 32, 32]) ⟨[4, 4], [1, 1], none, none⟩
      (by decide) (by decide) (by decide) (by decide)
  have d := (C7_caller_set_shape_kept example_context).2 example_dgrad
      caller_set_dgrad_heap 2 1 0 ⟨[4, 4], [1, 1], none, none⟩ (unset_tensor [64, 64, 3, 3])
      (unset_tensor [8, 64, 30, 30]) (by decide) (by decide) (by decide) (by decide)
      (by decide) (by decide)
  obtain ⟨a1, h1, hb⟩ := b.2 (by decide)
  obtain ⟨a2, h2, hd⟩ := d.2 (by decide)
  obtain ⟨y1, e1, e2, e3⟩ := b.1 _ _ _ hb
  obtain ⟨dx1, f1, f2, f3⟩ := d.1 _ _ _ hd
  exact ⟨⟨a1, h1, hb, y1, e1, e2 (by decide), e3 (by decide)⟩,
    ⟨a2, h2, hd, dx1, f1, f2, f3 (by decide)⟩⟩

/-! ## C8 -/

/-- C8: registration through `create_cudnn_tensors` is idempotent. For every batchnorm or
dgrad node, every tensor builder, every uid counter, registry and heap of descriptors,
after a first call that returned OK a second call returns OK and ends in the very state the
first call ended in: every descriptor keeps the uid it had, and the registry and the uid
counter are what they were. -/
theorem C8_create_cudnn_tensors_idempotent
    (tensor_build : Tensor_attributes → Option Tensor) (s s1 : Assembler) (e : error_t) :
    (∀ a : Batchnorm_inference_attributes,
      BatchnormInferenceNode.create_cudnn_tensors tensor_build a s = some (e, s1) →
      e.code = error_code_t.OK →
      BatchnormInferenceNode.create_cudnn_tensors tensor_build a s1
        = some (error_t.ok, s1)) ∧
    (∀ a : Conv_dgrad_attributes,
      DgradNode.create_cudnn_tensors tensor_build a s = some (e, s1) →
      e.code = error_code_t.OK →
      DgradNode.create_cudnn_tensors tensor_build a s1 = some (error_t.ok, s1)) :=
  ⟨fun a h he => create_cudnn_tensors_body_idempotent tensor_build a.inputs a.outputs
      s s1 e h he,
   fun a h he => create_cudnn_tensors_body_idempotent tensor_build a.inputs a.outputs
      s s1 e h he⟩

/-- C8 at the batchnorm scenario, from an empty registry and the counter 1, and at the
dgrad scenario, from the registry and the counter the batchnorm node left: the first call
assigns the uids, the second call changes nothing. -/
theorem C8_create_cudnn_tensors_idempotent_witness :
    (BatchnormInferenceNode.create_cudnn_tensors example_tensor_build example_batchnorm
        fresh_batchnorm_assembler = some (error_t.ok, registered_batchnorm_assembler) ∧
      BatchnormInferenceNode.create_cudnn_tensors example_tensor_build example_batchnorm
        registered_batchnorm_assembler = some (error_t.ok, registered_batchnorm_assembler)) ∧
    (DgradNode.create_cudnn_tensors example_tensor_build example_dgrad
        fresh_dgrad_assembler = some (error_t.ok, registered_dgrad_assembler) ∧
      DgradNode.create_cudnn_tensors example_tensor_build example_dgrad
        registered_dgrad_assembler = some (error_t.ok, registered_dgrad_assembler)) := by
  have hb : BatchnormInferenceNode.create_cudnn_tensors example_tensor_build
      example_batchnorm fresh_batchnorm_assembler
      = some (error_t.ok, registered_batchnorm_assembler) := by decide
  have hd : DgradNode.create_cudnn_tensors example_tensor_build example_dgrad
      fresh_dgrad_assembler = some (error_t.ok, registered_dgrad_assembler) := by decide
  exact ⟨⟨hb, (C8_create_cudnn_tensors_idempotent example_tensor_build
      fresh_batchnorm_assembler registered_batchnorm_assembler error_t.ok).1
      example_batchnorm hb rfl⟩,
    ⟨hd, (C8_create_cudnn_tensors_idempotent example_tensor_build
      fresh_dgrad_assembler registered_dgrad_assembler error_t.ok).2
      example_dgrad hd rfl⟩⟩

/-! ## C9 -/

/-- C9: batchnorm emission appends exactly one operation. For every batchnorm node whose
X, MEAN, INV_VARIANCE, SCALE, BIAS and Y slots are registered in the registry, and for
which the backend build of the normalization-forward builder (batch-norm mode, inference
phase, bound to X, MEAN and INV_VARIANCE, SCALE and BIAS, and Y) succeeds with an
operation, `create_cudnn_operations` returns OK and the operation list afterwards is the
list before the call with that one operation appended at the end. -/
theorem C9_batchnorm_emits_one_operation {Operation : Type}
    (build : OperationBuilder → Except cudnnException Operation)
    (get_non_virtual_uids : Batchnorm_inference_attributes → Heap → List Int)
    (a : Batchnorm_inference_attributes) (h : Heap) (s : Emission Operation)
    (tensors : Registry) (X MEAN INV_VARIANCE SCALE BIAS Y : Tensor) (operation : Operation)
    (hX : registered_tensor a.inputs Batchnorm_inference_attributes.input_names.X h tensors
      = some X)
    (hMEAN : registered_tensor a.inputs Batchnorm_inference_attributes.input_names.MEAN h
      tensors = some MEAN)
    (hINV : registered_tensor a.inputs Batchnorm_inference_attributes.input_names.INV_VARIANCE
      h tensors = some INV_VARIANCE)
    (hSCALE : registered_tensor a.inputs Batchnorm_inference_attributes.input_names.SCALE h
      tensors = some SCALE)
    (hBIAS : registered_tensor a.inputs Batchnorm_inference_attributes.input_names.BIAS h
      tensors = some BIAS)
    (hY : registered_tensor a.outputs Batchnorm_inference_attributes.output_names.Y h tensors
      = some Y)
    (hbuild : build
        { descriptor_type := DescriptorType_t.OPERATION_NORM_FORWARD_DESCRIPTOR
          norm_mode := some NormMode_t.BATCH_NORM
          norm_fwd_phase := some NormFwdPhase_t.INFERENCE
          xDesc := some X
          saved_mean := some MEAN
          saved_inv_var := some INV_VARIANCE
          scale := some SCALE
          bias := some BIAS
          yDesc := some Y } = Except.ok operation) :
    BatchnormInferenceNode.create_cudnn_operations build get_non_virtual_uids a h s tensors
      = Outcome.returned error_t.ok
          { uids_involved_in_operations :=
              insert_all s.uids_involved_in_operations (get_non_virtual_uids a h)
            operations := s.operations ++ [operation] } := by
  obtain ⟨pX, vX, tX⟩ := bound_of_registered hX
  obtain ⟨pM, vM, tM⟩ := bound_of_registered hMEAN
  obtain ⟨pI, vI, tI⟩ := bound_of_registered hINV
  obtain ⟨pS, vS, tS⟩ := bound_of_registered hSCALE
  obtain ⟨pB, vB, tB⟩ := bound_of_registered hBIAS
  obtain ⟨pY, vY, tY⟩ := bound_of_registered hY
  have hb : build (BatchnormInferenceNode.batchnorm_operation_builder X MEAN INV_VARIANCE
      SCALE BIAS Y) = Except.ok operation := hbuild
  unfold BatchnormInferenceNode.create_cudnn_operations
  rw [vX, tX, vM, vI, tM, tI, vS, vB, tS, tB, vY, tY, hb]

/-- C9 at the batchnorm scenario after its tensors are registered: one operation is
appended to the operation a previous node had emitted. -/
theorem C9_batchnorm_emits_one_operation_witness :
    BatchnormInferenceNode.create_cudnn_operations example_build
        (fun _ _ => [1, 2, 3, 4, 5, 6]) example_batchnorm
        registered_batchnorm_assembler.heap
        ⟨[1], [OperationBuilder.new
          DescriptorType_t.OPERATION_CONVOLUTION_BACKWARD_DATA_DESCRIPTOR]⟩
        registered_batchnorm_assembler.tensors
      = Outcome.returned error_t.ok
          ⟨[1, 2, 3, 4, 5, 6],
           [OperationBuilder.new
              DescriptorType_t.OPERATION_CONVOLUTION_BACKWARD_DATA_DESCRIPTOR,
            example_operation]⟩ :=
  C9_batchnorm_emits_one_operation example_build (fun _ _ => [1, 2, 3, 4, 5, 6])
    example_batchnorm registered_batchnorm_assembler.heap
    ⟨[1], [OperationBuilder.new
      DescriptorType_t.OPERATION_CONVOLUTION_BACKWARD_DATA_DESCRIPTOR]⟩
    registered_batchnorm_assembler.tensors
    ⟨1, [8, 64, 32, 32], [], none⟩ ⟨2, [1, 64, 1, 1], [], none⟩
    ⟨3, [1, 64, 1, 1], [], none⟩ ⟨4, [1, 64, 1, 1], [], none⟩ ⟨5, [1, 64, 1, 1], [], none⟩
    ⟨6, [8, 64, 32, 32], [65536, 1, 2048, 64], none⟩ example_operation
    (by decide) (by decide) (by decide) (by decide) (by decide) (by decide) rfl

end cudnn_frontend
